import Mathlib

/-!
# FramelessHelper: hit testing, system menu, theme and window bookkeeping

A shallow embedding of the decision logic of
`src/quick/framelessquickhelper.cpp`, `src/core/utils_win.cpp` and
`src/core/framelessmanager.cpp`, followed by the properties proved about it.

Toolkit and operating-system objects (Qt geometry classes, Qt Quick items and
windows, Win32 menus) are external to the repository.  They are represented by
small value types that carry exactly what the embedded functions read or write;
coordinates are unbounded integers (no 32-bit overflow is modelled).
-/

namespace FramelessHelper

/-! ## Qt geometry value types -/

/-- The toolkit's integer point. -/
structure QPoint where
  x : Int
  y : Int
deriving DecidableEq, Repr

/-- The toolkit's integer size. -/
structure QSize where
  width : Int
  height : Int
deriving DecidableEq, Repr

/-- The toolkit's integer rectangle, stored as its corner coordinates
(left, top, right, bottom), both corners included. -/
structure QRect where
  x1 : Int
  y1 : Int
  x2 : Int
  y2 : Int
deriving DecidableEq, Repr

namespace QSize

/-- `QSize::isEmpty`: either dimension is less than or equal to zero. -/
def isEmpty (s : QSize) : Bool := decide (s.width < 1) || decide (s.height < 1)

end QSize

namespace QRect

/-- The default-constructed rectangle `QRect()`: a null rectangle at the origin. -/
def null : QRect := ⟨0, 0, -1, -1⟩

/-- `QRect(const QPoint &topLeft, const QSize &size)`. -/
def ofPointSize (p : QPoint) (s : QSize) : QRect :=
  ⟨p.x, p.y, p.x + s.width - 1, p.y + s.height - 1⟩

/-- `QRect::isNull`: width and height are both zero. -/
def isNull (r : QRect) : Bool := decide (r.x2 = r.x1 - 1) && decide (r.y2 = r.y1 - 1)

/-- `QRect::isEmpty`: left > right or top > bottom. -/
def isEmpty (r : QRect) : Bool := decide (r.x1 > r.x2) || decide (r.y1 > r.y2)

/-- `QRect::isValid`: left <= right and top <= bottom. -/
def isValid (r : QRect) : Bool := decide (r.x1 ≤ r.x2) && decide (r.y1 ≤ r.y2)

/-- `QRect::contains(const QPoint &)` (with `proper = false`): the rectangle is
normalised first, so a rectangle of negative width or height still contains points. -/
def contains (r : QRect) (p : QPoint) : Bool :=
  let l := if r.x2 < r.x1 - 1 then r.x2 else r.x1
  let rr := if r.x2 < r.x1 - 1 then r.x1 else r.x2
  if p.x < l ∨ p.x > rr then false
  else
    let t := if r.y2 < r.y1 - 1 then r.y2 else r.y1
    let b := if r.y2 < r.y1 - 1 then r.y1 else r.y2
    if p.y < t ∨ p.y > b then false else true

/-- `QRect::intersects(const QRect &)`: false when either rectangle is null,
otherwise the normalised extents overlap on both axes. -/
def intersects (a b : QRect) : Bool :=
  if a.isNull || b.isNull then false
  else
    let l1 := if a.x2 - a.x1 + 1 < 0 then a.x2 else a.x1
    let r1 := if a.x2 - a.x1 + 1 < 0 then a.x1 else a.x2
    let l2 := if b.x2 - b.x1 + 1 < 0 then b.x2 else b.x1
    let r2 := if b.x2 - b.x1 + 1 < 0 then b.x1 else b.x2
    if l1 > r2 ∨ l2 > r1 then false
    else
      let t1 := if a.y2 - a.y1 + 1 < 0 then a.y2 else a.y1
      let b1 := if a.y2 - a.y1 + 1 < 0 then a.y1 else a.y2
      let t2 := if b.y2 - b.y1 + 1 < 0 then b.y2 else b.y1
      let b2 := if b.y2 - b.y1 + 1 < 0 then b.y1 else b.y2
      if t1 > b2 ∨ t2 > b1 then false else true

/-- The pixels of a rectangle: `p` lies between the stored corners on both axes.
A rectangle with left > right or top > bottom has no pixel. -/
def Inside (r : QRect) (p : QPoint) : Prop :=
  r.x1 ≤ p.x ∧ p.x ≤ r.x2 ∧ r.y1 ≤ p.y ∧ p.y ≤ r.y2

instance (r : QRect) (p : QPoint) : Decidable (r.Inside p) := by
  unfold Inside; infer_instance

end QRect

/-- The toolkit's region, represented by its set of pixels. -/
structure QRegion where
  mem : QPoint → Bool

namespace QRegion

/-- `QRegion(const QRect &)`: an empty rectangle gives the empty region,
any other rectangle gives its pixels. -/
def ofRect (r : QRect) : QRegion :=
  ⟨fun p => if r.isEmpty then false else decide (r.Inside p)⟩

/-- `QRegion::operator-=` with a rectangle: the pixels of the region that are
not in `QRegion(r)`. -/
def subtractRect (g : QRegion) (r : QRect) : QRegion :=
  ⟨fun p => g.mem p && !((ofRect r).mem p)⟩

/-- `QRegion::contains(const QPoint &)`. -/
def contains (g : QRegion) (p : QPoint) : Bool := g.mem p

end QRegion

/-! ## Qt Quick items, windows and the per-window helper data -/

/-- What the helper reads of a `QQuickItem`: its effective visibility, whether
it is enabled, and `sceneGeometry`, the value of
`QRectF(item->mapToScene(QPointF(0.0, 0.0)), item->size()).toRect()`. -/
structure QQuickItem where
  isVisible : Bool
  isEnabled : Bool
  sceneGeometry : QRect
deriving DecidableEq, Repr

/-- What the helper reads and writes of a `QQuickWindow`. -/
structure QQuickWindow where
  winId : Nat
  size : QSize
  flags : Nat
  minimumSize : QSize
  maximumSize : QSize
deriving DecidableEq, Repr

/-- The struct `FramelessQuickHelperData`; a `QPointer` is an optional item
(the `params` member is not read by the functions embedded here). -/
structure FramelessQuickHelperData where
  ready : Bool := false
  titleBarItem : Option QQuickItem := none
  hitTestVisibleItems : List (Option QQuickItem) := []
  windowIconButton : Option QQuickItem := none
  contextHelpButton : Option QQuickItem := none
  minimizeButton : Option QQuickItem := none
  maximizeButton : Option QQuickItem := none
  closeButton : Option QQuickItem := none
  hitTestVisibleRects : List QRect := []
deriving DecidableEq, Repr

/-- The global `g_framelessQuickHelperData`: a hash from window id to data. -/
abbrev FramelessQuickHelperInternal := List (Nat × FramelessQuickHelperData)

/-- `QHash::find` on the global table. -/
def FramelessQuickHelperInternal.find (g : FramelessQuickHelperInternal) (windowId : Nat) :
    Option FramelessQuickHelperData :=
  (List.find? (fun e => e.1 == windowId) g).map Prod.snd

/-- The part of a `FramelessQuickHelperPrivate` instance the embedded functions use:
`q->window()`, null while the helper is not in a window. -/
structure FramelessQuickHelperPrivate where
  window : Option QQuickWindow
deriving DecidableEq, Repr

namespace FramelessQuickHelperPrivate

/-- `FramelessQuickHelperPrivate::getWindowData`: null without a window,
otherwise the table entry of the window, a default-constructed entry when
the table had none (the source inserts it on the spot). -/
def getWindowData (g : FramelessQuickHelperInternal) (d : FramelessQuickHelperPrivate) :
    Option FramelessQuickHelperData :=
  match d.window with
  | none => none
  | some window =>
    match g.find window.winId with
    | some data => some data
    | none => some {}

/-- `FramelessQuickHelperPrivate::mapItemGeometryToScene`: `{}` for a null item. -/
def mapItemGeometryToScene (item : Option QQuickItem) : QRect :=
  match item with
  | none => QRect.null
  | some i => i.sceneGeometry

/-- The condition `item && item->isVisible() && item->isEnabled()`. -/
def isActiveItem (item : Option QQuickItem) : Bool :=
  match item with
  | none => false
  | some i => i.isVisible && i.isEnabled

/-- The initializer list `systemButtons` of `isInTitleBarDraggableArea`. -/
def systemButtons (data : FramelessQuickHelperData) : List (Option QQuickItem) :=
  [data.windowIconButton, data.contextHelpButton, data.minimizeButton,
   data.maximizeButton, data.closeButton]

/-- The loops `for (item : items) if (item && visible && enabled) region -= scene(item)`. -/
def subtractItems (region : QRegion) (items : List (Option QQuickItem)) : QRegion :=
  items.foldl
    (fun reg item => if isActiveItem item then reg.subtractRect (mapItemGeometryToScene item) else reg)
    region

/-- The loop `for (rect : hitTestVisibleRects) if (rect.isValid()) region -= rect`. -/
def subtractRects (region : QRegion) (rects : List QRect) : QRegion :=
  rects.foldl (fun reg rect => if rect.isValid then reg.subtractRect rect else reg) region

/-- `FramelessQuickHelperPrivate::isInTitleBarDraggableArea`. -/
def isInTitleBarDraggableArea (g : FramelessQuickHelperInternal)
    (d : FramelessQuickHelperPrivate) (pos : QPoint) : Bool :=
  match getWindowData g d with
  | none => false
  | some data =>
    match data.titleBarItem with
    | none => false
    | some titleBarItem =>
      if !titleBarItem.isVisible || !titleBarItem.isEnabled then false
      else
        match d.window with
        | none => false
        | some window =>
          let windowRect := QRect.ofPointSize ⟨0, 0⟩ window.size
          let titleBarRect := mapItemGeometryToScene (some titleBarItem)
          if !titleBarRect.intersects windowRect then false
          else
            let region := QRegion.ofRect titleBarRect
            let region := subtractItems region (systemButtons data)
            let region :=
              if !data.hitTestVisibleItems.isEmpty then
                subtractItems region data.hitTestVisibleItems
              else region
            let region :=
              if !data.hitTestVisibleRects.isEmpty then
                subtractRects region data.hitTestVisibleRects
              else region
            region.contains pos

end FramelessQuickHelperPrivate

/-! ## Win32 system menu (`src/core/utils_win.cpp`) -/

/-- Win32 system-menu command `SC_SIZE`. -/
def SC_SIZE : Nat := 0xF000
/-- Win32 system-menu command `SC_MOVE`. -/
def SC_MOVE : Nat := 0xF010
/-- Win32 system-menu command `SC_MINIMIZE`. -/
def SC_MINIMIZE : Nat := 0xF020
/-- Win32 system-menu command `SC_MAXIMIZE`. -/
def SC_MAXIMIZE : Nat := 0xF030
/-- Win32 system-menu command `SC_CLOSE`. -/
def SC_CLOSE : Nat := 0xF060
/-- Win32 system-menu command `SC_KEYMENU`. -/
def SC_KEYMENU : Nat := 0xF100
/-- Win32 system-menu command `SC_RESTORE`. -/
def SC_RESTORE : Nat := 0xF120

/-- Win32 menu flag `MF_BYCOMMAND`. -/
def MF_BYCOMMAND : Nat := 0x0
/-- Win32 menu state `MFS_ENABLED`. -/
def MFS_ENABLED : Nat := 0x0
/-- Win32 menu state `MFS_DISABLED` (greyed and disabled). -/
def MFS_DISABLED : Nat := 0x3
/-- Win32 menu state `MFS_HILITE`. -/
def MFS_HILITE : Nat := 0x80
/-- Win32 menu state `MFS_UNHILITE`. -/
def MFS_UNHILITE : Nat := 0x0
/-- Win32 popup flag `TPM_RETURNCMD`. -/
def TPM_RETURNCMD : Nat := 0x100
/-- Win32 popup flag `TPM_LEFTALIGN`. -/
def TPM_LEFTALIGN : Nat := 0x0
/-- Win32 popup flag `TPM_RIGHTALIGN`. -/
def TPM_RIGHTALIGN : Nat := 0x8

/-- Window message `WM_NCRBUTTONUP`. -/
def WM_NCRBUTTONUP : Nat := 0x00A5
/-- Window message `WM_KEYDOWN`. -/
def WM_KEYDOWN : Nat := 0x0100
/-- Window message `WM_SYSKEYDOWN`. -/
def WM_SYSKEYDOWN : Nat := 0x0104
/-- Window message `WM_SYSCOMMAND`. -/
def WM_SYSCOMMAND : Nat := 0x0112
/-- Window message `WM_RBUTTONUP`. -/
def WM_RBUTTONUP : Nat := 0x0205
/-- Hit-test code `HTCAPTION`. -/
def HTCAPTION : Nat := 2
/-- Virtual key `VK_MENU` (Alt). -/
def VK_MENU : Nat := 0x12
/-- Virtual key `VK_SPACE`. -/
def VK_SPACE : Nat := 0x20

/-- The three window properties `showSystemMenu` reads through `getProperty`. -/
inductive SysMenuProperty
  | kSysMenuDisableRestoreVar
  | kSysMenuDisableMinimizeVar
  | kSysMenuDisableMaximizeVar
deriving DecidableEq, Repr

/-- The callbacks of `SystemParameters` used by the system menu code:
`isWindowFixedSize()`, `isInsideTitleBarDraggableArea(pos)` and
`getProperty(name, defaultValue).toBool()`. -/
structure SystemParameters where
  isWindowFixedSize : Bool
  isInsideTitleBarDraggableArea : QPoint → Bool
  getProperty : SysMenuProperty → Bool → Bool

/-- The Win32 calls `showSystemMenu` makes on the menu, in order. -/
inductive MenuCall
  | EnableMenuItem (uIDEnableItem : Nat) (uEnable : Nat)
  | HiliteMenuItem (uIDHiliteItem : Nat) (uHilite : Nat)
  | SetMenuDefaultItem (uItem : Nat) (fByPos : Bool)
  | TrackPopupMenu (uFlags : Nat) (x : Int) (y : Int)
  | PostMessageW (msg : Nat) (wParam : Nat) (lParam : Int)
deriving DecidableEq, Repr

/-- What `showSystemMenu` learns from the system: whether `GetSystemMenu` gives
a menu, `IsMaximized(hWnd)`, `isFullScreen(windowId)`, the layout direction and
the command `TrackPopupMenu` returns (0 when the user cancels). -/
structure SystemMenuEnv where
  hasSystemMenu : Bool
  isMaximized : Bool
  isFullScreen : Bool
  isRightToLeft : Bool
  trackPopupMenuResult : Nat
deriving DecidableEq, Repr

/-- `Utils::showSystemMenu`, as the list of Win32 calls it makes on the menu. -/
def showSystemMenu (env : SystemMenuEnv) (windowId : Nat) (pos : QPoint)
    (selectFirstEntry : Bool) (params : Option SystemParameters) : List MenuCall :=
  match params with
  | none => []
  | some params =>
    if windowId = 0 then []
    else if !env.hasSystemMenu then []
    else
      let disableRestore := params.getProperty .kSysMenuDisableRestoreVar false
      let disableMinimize := params.getProperty .kSysMenuDisableMinimizeVar false
      let disableMaximize := params.getProperty .kSysMenuDisableMaximizeVar false
      let maxOrFull := env.isMaximized || env.isFullScreen
      let fixedSize := params.isWindowFixedSize
      [ .EnableMenuItem SC_RESTORE
          (MF_BYCOMMAND ||| (if maxOrFull && !fixedSize && !disableRestore
            then MFS_ENABLED else MFS_DISABLED)),
        .HiliteMenuItem SC_RESTORE
          (MF_BYCOMMAND ||| (if selectFirstEntry then MFS_HILITE else MFS_UNHILITE)),
        .EnableMenuItem SC_MOVE
          (MF_BYCOMMAND ||| (if !maxOrFull then MFS_ENABLED else MFS_DISABLED)),
        .EnableMenuItem SC_SIZE
          (MF_BYCOMMAND ||| (if !maxOrFull && !fixedSize && !(disableMinimize || disableMaximize)
            then MFS_ENABLED else MFS_DISABLED)),
        .EnableMenuItem SC_MINIMIZE
          (MF_BYCOMMAND ||| (if disableMinimize then MFS_DISABLED else MFS_ENABLED)),
        .EnableMenuItem SC_MAXIMIZE
          (MF_BYCOMMAND ||| (if !maxOrFull && !fixedSize && !disableMaximize
            then MFS_ENABLED else MFS_DISABLED)),
        .EnableMenuItem SC_CLOSE (MF_BYCOMMAND ||| MFS_ENABLED),
        .SetMenuDefaultItem SC_CLOSE false,
        .TrackPopupMenu
          (TPM_RETURNCMD ||| (if env.isRightToLeft then TPM_RIGHTALIGN else TPM_LEFTALIGN))
          pos.x pos.y,
        .HiliteMenuItem SC_RESTORE (MF_BYCOMMAND ||| MFS_UNHILITE) ] ++
      (if env.trackPopupMenuResult = 0 then []
       else [ .PostMessageW WM_SYSCOMMAND env.trackPopupMenuResult 0 ])

/-- The state Win32 keeps for a menu item after a run of calls: the item is
enabled when the most recent `EnableMenuItem` for it carried neither of the
bits of `MFS_DISABLED`; `none` when no call touched the item. -/
def menuItemEnabled (calls : List MenuCall) (item : Nat) : Option Bool :=
  calls.foldl
    (fun st call =>
      match call with
      | .EnableMenuItem uIDEnableItem uEnable =>
        if uIDEnableItem = item then some ((uEnable &&& MFS_DISABLED) == 0) else st
      | _ => st)
    none

/-! ## The system menu hook (`src/core/utils_win.cpp`) -/

/-- The struct `Win32UtilsData`; a `WNDPROC` is an address, 0 being `nullptr`. -/
structure Win32UtilsData where
  originalWindowProc : Nat
  params : SystemParameters

/-- The hash `g_win32UtilsData()->data`, from window id to hook data. -/
abbrev HookTable := List (Nat × Win32UtilsData)

namespace HookTable

/-- `QHash::constFind`. -/
def constFind (t : HookTable) (windowId : Nat) : Option Win32UtilsData :=
  (List.find? (fun e => e.1 == windowId) t).map Prod.snd

/-- `QHash::insert`: replaces the value of an existing key. -/
def insert (t : HookTable) (windowId : Nat) (data : Win32UtilsData) : HookTable :=
  (windowId, data) :: t.filter (fun e => e.1 != windowId)

/-- `QHash::erase` of the entry found for `windowId`. -/
def erase (t : HookTable) (windowId : Nat) : HookTable :=
  t.filter (fun e => e.1 != windowId)

/-- Every entry belongs to a non-null window and stores a non-null procedure. -/
def WellFormed (t : HookTable) : Prop :=
  ∀ e ∈ t, e.1 ≠ 0 ∧ e.2.originalWindowProc ≠ 0

end HookTable

/-- `GET_X_LPARAM` and `GET_Y_LPARAM` read a word as a signed 16-bit value. -/
def toInt16 (word : Int) : Int :=
  if word % 65536 < 32768 then word % 65536 else word % 65536 - 65536

/-- `GET_X_LPARAM(lParam)`: the low word, signed. -/
def GET_X_LPARAM (lParam : Int) : Int := toInt16 (lParam % 65536)

/-- `GET_Y_LPARAM(lParam)`: the high word of the low double word, signed. -/
def GET_Y_LPARAM (lParam : Int) : Int := toInt16 ((lParam / 65536) % 65536)

/-- What the hook asks of the system and of the rest of the library while it
handles one message: `Utils::fromNativeLocalPosition(window, pos)`,
`ClientToScreen` (`none` when it returns FALSE), `GetKeyState(vk) < 0`,
`GetWindowRect` (left and top, `none` when it returns FALSE),
`IsMaximized(hWnd)`, `Utils::isFullScreen`, `Utils::getResizeBorderThickness`
(horizontal and vertical), `Utils::isWindowFrameBorderVisible`,
`Utils::getTitleBarHeight` and `WindowsVersionHelper::isWin11OrGreater`. -/
structure HookEnv where
  fromNativeLocalPosition : QPoint → QPoint
  clientToScreen : QPoint → Option QPoint
  getKeyStateNegative : Nat → Bool
  getWindowRect : Option QPoint
  isMaximized : Bool
  isFullScreen : Bool
  frameSizeX : Int
  frameSizeY : Int
  isWindowFrameBorderVisible : Bool
  titleBarHeight : Int
  isWin11OrGreater : Bool

/-- How one run of the hook ends. -/
inductive HookOutcome
  /-- `hWnd` is null: return 0. -/
  | nullWindow
  /-- `Utils::showSystemMenu(windowId, nativeGlobalPos, broughtByKeyboard, &data.params)`
  is called and the hook returns 0. -/
  | showSystemMenu (windowId : Nat) (nativeGlobalPos : QPoint) (broughtByKeyboard : Bool)
  /-- The hook returns `CallWindowProcW(proc, hWnd, uMsg, wParam, lParam)`. -/
  | CallWindowProcW (proc : Nat) (hWnd : Nat) (uMsg : Nat) (wParam : Nat) (lParam : Int)
  /-- The hook returns `DefWindowProcW(hWnd, uMsg, wParam, lParam)`. -/
  | DefWindowProcW (hWnd : Nat) (uMsg : Nat) (wParam : Nat) (lParam : Int)
deriving DecidableEq, Repr

/-- The lambda `getNativePosFromMouse` of the hook. -/
def getNativePosFromMouse (lParam : Int) : QPoint :=
  ⟨GET_X_LPARAM lParam, GET_Y_LPARAM lParam⟩

/-- The lambda `getNativeGlobalPosFromKeyboard` of the hook. -/
def getNativeGlobalPosFromKeyboard (env : HookEnv) : QPoint :=
  match env.getWindowRect with
  | none => ⟨0, 0⟩
  | some windowPos =>
    let maxOrFull := env.isMaximized || env.isFullScreen
    let frameBorderVisible := env.isWindowFrameBorderVisible
    let horizontalOffset : Int := if maxOrFull || !frameBorderVisible then 0 else env.frameSizeX
    let verticalOffset : Int :=
      if !frameBorderVisible then env.titleBarHeight
      else if env.isWin11OrGreater then
        (if maxOrFull then env.titleBarHeight + env.frameSizeY else env.titleBarHeight)
      else
        (if maxOrFull then env.titleBarHeight else env.titleBarHeight - env.frameSizeY)
    ⟨windowPos.x + horizontalOffset, windowPos.y + verticalOffset⟩

/-- The `switch (uMsg)` of the hook: `some (nativeGlobalPos, broughtByKeyboard)`
when it sets `shouldShowSystemMenu`, `none` otherwise. -/
def hookDecision (env : HookEnv) (data : Win32UtilsData) (uMsg : Nat) (wParam : Nat)
    (lParam : Int) : Option (QPoint × Bool) :=
  if uMsg = WM_RBUTTONUP then
    let nativeLocalPos := getNativePosFromMouse lParam
    let qtScenePos := env.fromNativeLocalPosition nativeLocalPos
    if data.params.isInsideTitleBarDraggableArea qtScenePos then
      match env.clientToScreen nativeLocalPos with
      | none => none
      | some pos => some (pos, false)
    else none
  else if uMsg = WM_NCRBUTTONUP then
    if wParam = HTCAPTION then some (getNativePosFromMouse lParam, false) else none
  else if uMsg = WM_SYSCOMMAND then
    let filteredWParam := wParam &&& 0xFFF0
    if filteredWParam = SC_KEYMENU ∧ lParam = (VK_SPACE : Int) then
      some (getNativeGlobalPosFromKeyboard env, true)
    else none
  else if uMsg = WM_KEYDOWN ∨ uMsg = WM_SYSKEYDOWN then
    let altPressed := decide (wParam = VK_MENU) || env.getKeyStateNegative VK_MENU
    let spacePressed := decide (wParam = VK_SPACE) || env.getKeyStateNegative VK_SPACE
    if altPressed && spacePressed then some (getNativeGlobalPosFromKeyboard env, true)
    else none
  else none

/-- `SystemMenuHookWindowProc`. -/
def SystemMenuHookWindowProc (env : HookEnv) (table : HookTable)
    (hWnd : Nat) (uMsg : Nat) (wParam : Nat) (lParam : Int) : HookOutcome :=
  if hWnd = 0 then .nullWindow
  else
    let windowId := hWnd
    match table.constFind windowId with
    | none => .DefWindowProcW hWnd uMsg wParam lParam
    | some data =>
      match hookDecision env data uMsg wParam lParam with
      | some (nativeGlobalPos, broughtByKeyboard) =>
        .showSystemMenu windowId nativeGlobalPos broughtByKeyboard
      | none =>
        if data.originalWindowProc ≠ 0 then
          .CallWindowProcW data.originalWindowProc hWnd uMsg wParam lParam
        else .DefWindowProcW hWnd uMsg wParam lParam

/-- The window procedures the system holds: `GetWindowLongPtrW(hwnd, GWLP_WNDPROC)`
per window, 0 for a window the system does not know. -/
abbrev WindowProcs := Nat → Nat

/-- `SetWindowLongPtrW(hwnd, GWLP_WNDPROC, proc)` when it succeeds. -/
def WindowProcs.set (procs : WindowProcs) (hwnd : Nat) (proc : Nat) : WindowProcs :=
  fun h => if h = hwnd then proc else procs h

/-- `Utils::installSystemMenuHook`; `hookProc` is the address of
`SystemMenuHookWindowProc`, `setOk` tells whether `SetWindowLongPtrW` succeeds. -/
def installSystemMenuHook (hookProc : Nat) (setOk : Bool) (procs : WindowProcs)
    (table : HookTable) (windowId : Nat) (params : Option SystemParameters) :
    WindowProcs × HookTable :=
  match params with
  | none => (procs, table)
  | some params =>
    if windowId = 0 then (procs, table)
    else
      match table.constFind windowId with
      | some _ => (procs, table)
      | none =>
        let originalWindowProc := procs windowId
        if originalWindowProc = 0 then (procs, table)
        else if !setOk then (procs, table)
        else (procs.set windowId hookProc, table.insert windowId ⟨originalWindowProc, params⟩)

/-- `Utils::uninstallSystemMenuHook`. -/
def uninstallSystemMenuHook (setOk : Bool) (procs : WindowProcs) (table : HookTable)
    (windowId : Nat) : WindowProcs × HookTable :=
  if windowId = 0 then (procs, table)
  else
    match table.constFind windowId with
    | none => (procs, table)
    | some data =>
      if data.originalWindowProc = 0 then (procs, table)
      else if !setOk then (procs, table)
      else (procs.set windowId data.originalWindowProc, table.erase windowId)

/-- `Utils::removeSysMenuHook`. -/
def removeSysMenuHook (procs : WindowProcs) (table : HookTable) (windowId : Nat) :
    WindowProcs × HookTable :=
  if windowId = 0 then (procs, table)
  else
    match table.constFind windowId with
    | none => (procs, table)
    | some _ => (procs, table.erase windowId)

/-! ## The frameless manager (`src/core/framelessmanager.cpp`) -/

/-- The enum `Global::SystemTheme`.  Its declaration is in the public global
header, which is not among the sources; the manager code uses `Unknown`,
`Light` and `Dark`, and the upstream header also lists `HighContrast`. -/
inductive SystemTheme
  | Unknown
  | Light
  | Dark
  | HighContrast
deriving DecidableEq, Repr

/-- The enum `Global::DwmColorizationArea`, with the values
`Utils::getDwmColorizationArea` returns. -/
inductive DwmColorizationArea
  | None
  | StartMenu_TaskBar_ActionCenter
  | TitleBar_WindowBorder
  | All
deriving DecidableEq, Repr

/-- The toolkit's colour, as far as the manager uses it: a value compared with `!=`. -/
structure QColor where
  rgba : Nat
deriving DecidableEq, Repr

/-- What one theme detection reads from the system: `Utils::shouldAppsUseDarkMode()`,
`Utils::getAccentColor()` and, on Windows, `Utils::getDwmColorizationArea()`. -/
structure ThemeDetection where
  shouldAppsUseDarkMode : Bool
  accentColor : QColor
  colorizationArea : DwmColorizationArea
deriving DecidableEq, Repr

/-- The expression `(Utils::shouldAppsUseDarkMode() ? SystemTheme::Dark : SystemTheme::Light)`. -/
def ThemeDetection.systemTheme (det : ThemeDetection) : SystemTheme :=
  if det.shouldAppsUseDarkMode then .Dark else .Light

/-- The theme-related members of `FramelessManagerPrivate`. -/
structure FramelessManagerPrivate where
  m_systemTheme : SystemTheme
  m_overrideTheme : Option SystemTheme
  m_accentColor : QColor
  m_colorizationArea : DwmColorizationArea
deriving DecidableEq, Repr

namespace FramelessManagerPrivate

/-- `FramelessManagerPrivate::isThemeOverrided`. -/
def isThemeOverrided (s : FramelessManagerPrivate) : Bool :=
  s.m_overrideTheme.getD .Unknown != .Unknown

/-- `FramelessManagerPrivate::systemTheme`; `m_overrideTheme.value()` is read
only when `isThemeOverrided()` holds, so the optional has a value there. -/
def systemTheme (s : FramelessManagerPrivate) : SystemTheme :=
  if s.isThemeOverrided then
    match s.m_overrideTheme with
    | some theme => theme
    | none => .Unknown
  else s.m_systemTheme

/-- The theme part of `FramelessManagerPrivate::initialize`, which the
constructor runs: the detected values are cached and the override starts
empty.  `windows` tells whether `Q_OS_WINDOWS` is defined. -/
def initialState (windows : Bool) (det : ThemeDetection) : FramelessManagerPrivate :=
  { m_systemTheme := det.systemTheme
    m_overrideTheme := none
    m_accentColor := det.accentColor
    m_colorizationArea := if windows then det.colorizationArea else .None }

/-- `FramelessManagerPrivate::doNotifySystemThemeHasChangedOrNot`: the new state
and whether `systemThemeChanged` is emitted. -/
def doNotifySystemThemeHasChangedOrNot (windows : Bool) (det : ThemeDetection)
    (s : FramelessManagerPrivate) : FramelessManagerPrivate × Bool :=
  let currentSystemTheme := det.systemTheme
  let currentAccentColor := det.accentColor
  let currentColorizationArea := det.colorizationArea
  let notify := false
  let (s, notify) :=
    if s.m_systemTheme != currentSystemTheme then
      ({ s with m_systemTheme := currentSystemTheme }, true)
    else (s, notify)
  let (s, notify) :=
    if s.m_accentColor != currentAccentColor then
      ({ s with m_accentColor := currentAccentColor }, true)
    else (s, notify)
  let (s, notify) :=
    if windows && s.m_colorizationArea != currentColorizationArea then
      ({ s with m_colorizationArea := currentColorizationArea }, true)
    else (s, notify)
  (s, notify && !s.isThemeOverrided)

/-- `FramelessManagerPrivate::setOverrideTheme`: the new state and whether
`systemThemeChanged` is emitted. -/
def setOverrideTheme (theme : SystemTheme) (s : FramelessManagerPrivate) :
    FramelessManagerPrivate × Bool :=
  if (s.m_overrideTheme.isNone && theme == .Unknown)
      || (s.m_overrideTheme.isSome && s.m_overrideTheme == some theme) then
    (s, false)
  else if theme == .Unknown then
    ({ s with m_overrideTheme := none }, true)
  else
    ({ s with m_overrideTheme := some theme }, true)

end FramelessManagerPrivate

/-- A call on the manager that touches the theme state. -/
inductive ThemeCall
  | setOverrideTheme (theme : SystemTheme)
  | doNotifySystemThemeHasChangedOrNot (det : ThemeDetection)
deriving DecidableEq, Repr

/-- The manager state after one theme call. -/
def ThemeCall.apply (windows : Bool) (s : FramelessManagerPrivate) (call : ThemeCall) :
    FramelessManagerPrivate :=
  match call with
  | .setOverrideTheme theme => (s.setOverrideTheme theme).1
  | .doNotifySystemThemeHasChangedOrNot det =>
    (s.doNotifySystemThemeHasChangedOrNot windows det).1

/-- The manager state after a sequence of theme calls. -/
def runThemeCalls (windows : Bool) (s : FramelessManagerPrivate) (calls : List ThemeCall) :
    FramelessManagerPrivate :=
  calls.foldl (ThemeCall.apply windows) s

/-- The theme found by the most recent detection: the last
`doNotifySystemThemeHasChangedOrNot` of `calls`, or `start` when there is none. -/
def lastDetectedTheme (start : SystemTheme) (calls : List ThemeCall) : SystemTheme :=
  calls.foldl
    (fun theme call =>
      match call with
      | .setOverrideTheme _ => theme
      | .doNotifySystemThemeHasChangedOrNot det => det.systemTheme)
    start

/-- The global `g_framelessManagerData`: the list of registered window ids. -/
abbrev FramelessManagerData := List Nat

/-- The platform helpers `addWindow` and `removeWindow` invoke. -/
inductive PlatformCall
  | FramelessHelperQt_addWindow (windowId : Nat)
  | FramelessHelperWin_addWindow (windowId : Nat)
  | installSystemMenuHook (windowId : Nat)
  | connectDestroyed (windowId : Nat)
  | FramelessHelperQt_removeWindow (windowId : Nat)
  | FramelessHelperWin_removeWindow (windowId : Nat)
  | removeSysMenuHook (windowId : Nat)
  | removeMicaWindow (windowId : Nat)
deriving DecidableEq, Repr

/-- The build and configuration the manager runs in: whether `Q_OS_WINDOWS` is
defined and the value of `usePureQtImplementation()`. -/
structure ManagerConfig where
  windows : Bool
  pureQt : Bool
deriving DecidableEq, Repr

/-- `FramelessManagerPrivate::addWindow`; `params` is null or gives the value of
`params->getWindowId()`.  Returns the list and the helpers invoked, in order. -/
def addWindow (cfg : ManagerConfig) (data : FramelessManagerData) (params : Option Nat) :
    FramelessManagerData × List PlatformCall :=
  match params with
  | none => (data, [])
  | some windowId =>
    if data.contains windowId then (data, [])
    else
      (data ++ [windowId],
        (if cfg.pureQt then [PlatformCall.FramelessHelperQt_addWindow windowId] else []) ++
        (if cfg.windows then
          (if !cfg.pureQt then [PlatformCall.FramelessHelperWin_addWindow windowId] else []) ++
            [PlatformCall.installSystemMenuHook windowId]
         else []) ++
        [PlatformCall.connectDestroyed windowId])

/-- `FramelessManagerPrivate::removeWindow`.  Returns the list and the helpers
invoked, in order. -/
def removeWindow (cfg : ManagerConfig) (data : FramelessManagerData) (windowId : Nat) :
    FramelessManagerData × List PlatformCall :=
  if windowId = 0 then (data, [])
  else if !data.contains windowId then (data, [])
  else
    (data.filter (fun w => w != windowId),
      (if cfg.pureQt then [PlatformCall.FramelessHelperQt_removeWindow windowId] else []) ++
      (if cfg.windows then
        (if !cfg.pureQt then [PlatformCall.FramelessHelperWin_removeWindow windowId] else []) ++
          [PlatformCall.removeSysMenuHook windowId, PlatformCall.removeMicaWindow windowId]
       else []))

/-- A call on the manager that touches the window list. -/
inductive WindowCall
  | addWindow (params : Option Nat)
  | removeWindow (windowId : Nat)
deriving DecidableEq, Repr

/-- The window list after a sequence of calls. -/
def runWindowCalls (cfg : ManagerConfig) (data : FramelessManagerData)
    (calls : List WindowCall) : FramelessManagerData :=
  calls.foldl
    (fun d call =>
      match call with
      | .addWindow params => (addWindow cfg d params).1
      | .removeWindow windowId => (removeWindow cfg d windowId).1)
    data

/-! ## Blur mode resolution (`Utils::setBlurBehindWindowEnabled`) -/

/-- The enum `Global::BlurMode`, with the values the blur code names. -/
inductive BlurMode
  | Disable
  | Default
  | Windows_Aero
  | Windows_Acrylic
  | Windows_Mica
  | Windows_MicaAlt
deriving DecidableEq, Repr

/-- How the `blurMode` lambda ends: through one of its `return` statements, or
at the final `Q_UNREACHABLE_RETURN(value)` marker. -/
inductive BlurModeResolution
  | returned (mode : BlurMode)
  | unreachableReturn (mode : BlurMode)
deriving DecidableEq, Repr

/-- The lambda `blurMode` of `Utils::setBlurBehindWindowEnabled`;
`isWin11OrGreater` and `isWin10OrGreater` are the values of the
`WindowsVersionHelper` functions of these names. -/
def blurMode (isWin11OrGreater isWin10OrGreater preferMicaAlt : Bool) (mode : BlurMode) :
    BlurModeResolution :=
  if mode = .Disable ∨ mode = .Windows_Aero then .returned mode
  else if (mode = .Windows_Mica ∨ mode = .Windows_MicaAlt) ∧ isWin11OrGreater = false then
    if isWin10OrGreater then .returned .Windows_Acrylic
    else .returned .Windows_Aero
  else if mode = .Windows_Acrylic ∧ isWin10OrGreater = false then .returned .Windows_Aero
  else if mode = .Default then
    if isWin11OrGreater then
      .returned (if preferMicaAlt then .Windows_MicaAlt else .Windows_Mica)
    else if isWin10OrGreater then .returned .Windows_Acrylic
    else .returned .Windows_Aero
  else .unreachableReturn .Default

/-! ## Fixed-size windows (`src/quick/framelessquickhelper.cpp`) -/

/-- The window flag `Qt::MSWindowsFixedSizeDialogHint`. -/
def MSWindowsFixedSizeDialogHint : Nat := 0x00000100

/-- The macro `QWINDOWSIZE_MAX`: `((1 << 24) - 1)`. -/
def QWINDOWSIZE_MAX : Int := (1 <<< 24) - 1

/-- The size `QWindow::setMinimumSize` and `QWindow::setMaximumSize` store: the
argument with each dimension bounded to the range 0 .. `QWINDOWSIZE_MAX`. -/
def QSize.boundedToWindowRange (s : QSize) : QSize :=
  ⟨min (max s.width 0) QWINDOWSIZE_MAX, min (max s.height 0) QWINDOWSIZE_MAX⟩

namespace QQuickWindow

/-- `QWindow::setMinimumSize`, as far as the stored minimum size goes. -/
def setMinimumSize (w : QQuickWindow) (size : QSize) : QQuickWindow :=
  { w with minimumSize := size.boundedToWindowRange }

/-- `QWindow::setMaximumSize`, as far as the stored maximum size goes. -/
def setMaximumSize (w : QQuickWindow) (size : QSize) : QQuickWindow :=
  { w with maximumSize := size.boundedToWindowRange }

end QQuickWindow

namespace FramelessQuickHelperPrivate

/-- `FramelessQuickHelperPrivate::isWindowFixedSize`. -/
def isWindowFixedSize (d : FramelessQuickHelperPrivate) : Bool :=
  match d.window with
  | none => false
  | some window =>
    if window.flags &&& MSWindowsFixedSizeDialogHint ≠ 0 then true
    else
      let minSize := window.minimumSize
      let maxSize := window.maximumSize
      if !minSize.isEmpty && !maxSize.isEmpty && minSize == maxSize then true
      else false

/-- `FramelessQuickHelperPrivate::setWindowFixedSize`; `kDefaultWindowSize` is
the library constant of that name, declared outside the sources.  The Windows
call `Utils::setAeroSnappingEnabled` changes the native window style only and
the emitted signal is not part of the state. -/
def setWindowFixedSize (kDefaultWindowSize : QSize) (d : FramelessQuickHelperPrivate)
    (value : Bool) : FramelessQuickHelperPrivate :=
  match d.window with
  | none => d
  | some window =>
    if d.isWindowFixedSize = value then d
    else if value then
      let size := window.size
      let window := window.setMinimumSize size
      let window := window.setMaximumSize size
      { d with window := some window }
    else
      let window := window.setMinimumSize kDefaultWindowSize
      let window := window.setMaximumSize ⟨QWINDOWSIZE_MAX, QWINDOWSIZE_MAX⟩
      { d with window := some window }

end FramelessQuickHelperPrivate

/-! ## Attaching a helper to its window (`src/quick/framelessquickhelper.cpp`) -/

namespace FramelessQuickHelperInternal

/-- The `find` followed by `insert(windowId, {})` of `getWindowData` and
`getWindowDataMutable`: a default-constructed entry is added when the window
has none. -/
def insertDefault (g : FramelessQuickHelperInternal) (windowId : Nat) :
    FramelessQuickHelperInternal :=
  match g.find windowId with
  | some _ => g
  | none => g ++ [(windowId, {})]

/-- The assignment `data->ready = true` on the entry of `windowId`. -/
def setReady (g : FramelessQuickHelperInternal) (windowId : Nat) :
    FramelessQuickHelperInternal :=
  g.map (fun e => if e.1 == windowId then (e.1, { e.2 with ready := true }) else e)

/-- `QHash::erase` of the entry found for `windowId`. -/
def erase (g : FramelessQuickHelperInternal) (windowId : Nat) :
    FramelessQuickHelperInternal :=
  g.filter (fun e => e.1 != windowId)

end FramelessQuickHelperInternal

/-- A `FramelessQuickHelperPrivate` instance with the members the attach logic
uses on top of `q->window()`: the optional `m_extendIntoTitleBar`, empty until
a choice is recorded, and `m_destroying`. -/
structure QuickHelperInstance extends FramelessQuickHelperPrivate where
  m_extendIntoTitleBar : Option Bool := none
  m_destroying : Bool := false
deriving DecidableEq, Repr

/-- A helper instance together with the global `g_framelessQuickHelperData`. -/
structure QuickHelperWorld where
  data : FramelessQuickHelperInternal
  helper : QuickHelperInstance
deriving DecidableEq, Repr

namespace QuickHelperWorld

/-- The table after `getWindowData()` or `getWindowDataMutable()` ran: with a
window, the window has an entry. -/
def touchWindowData (s : QuickHelperWorld) : QuickHelperWorld :=
  match s.helper.window with
  | none => s
  | some window => { s with data := s.data.insertDefault window.winId }

/-- `FramelessQuickHelperPrivate::isContentExtendedIntoTitleBar`:
`(data ? data->ready : false)`. -/
def isContentExtendedIntoTitleBar (s : QuickHelperWorld) : Bool :=
  match FramelessQuickHelperPrivate.getWindowData s.data s.helper.toFramelessQuickHelperPrivate with
  | some data => data.ready
  | none => false

/-- `FramelessQuickHelperPrivate::attach`, as far as the table goes: without a
window or with a ready entry nothing happens, otherwise the entry of the window
becomes ready (the call into `FramelessManager::addWindow` and the timer do
not touch the table). -/
def attach (s : QuickHelperWorld) : QuickHelperWorld :=
  match s.helper.window with
  | none => s
  | some window =>
    let s := s.touchWindowData
    match s.data.find window.winId with
    | none => s
    | some data =>
      if data.ready then s
      else { s with data := s.data.setReady window.winId }

/-- `FramelessQuickHelperPrivate::detach`, as far as the table goes: the entry
of the window is erased when there is one. -/
def detach (s : QuickHelperWorld) : QuickHelperWorld :=
  match s.helper.window with
  | none => s
  | some w =>
    let windowId := w.winId
    match s.data.find windowId with
    | none => s
    | some _ => { s with data := s.data.erase windowId }

/-- `FramelessQuickHelperPrivate::extendsContentIntoTitleBar`. -/
def extendsContentIntoTitleBar (s : QuickHelperWorld) (value : Bool) : QuickHelperWorld :=
  if s.isContentExtendedIntoTitleBar = value then s.touchWindowData
  else
    let s := s.touchWindowData
    let s := if value then s.attach else s.detach
    { s with helper := { s.helper with m_extendIntoTitleBar := some value } }

/-- `FramelessQuickHelperPrivate::rebindWindow`, as far as the table and the
recorded choice go (the reparenting of the helper item is not part of them). -/
def rebindWindow (s : QuickHelperWorld) : QuickHelperWorld :=
  match s.helper.window with
  | none => s
  | some _ =>
    if s.helper.m_extendIntoTitleBar.getD true then s.extendsContentIntoTitleBar true
    else s

/-- `FramelessQuickHelper::itemChange(ItemSceneChange, value)`: the toolkit has
made `value.window` the window of the helper, and `rebindWindow()` runs when
that window is not null. -/
def itemChange (s : QuickHelperWorld) (window : Option QQuickWindow) : QuickHelperWorld :=
  let s := { s with helper := { s.helper with window := window } }
  match window with
  | none => s
  | some _ => s.rebindWindow

end QuickHelperWorld

/-! ## Accent colour (`Utils::getAccentColor_windows`) -/

/-- The toolkit's `qRed`: bits 16..23 of an `0xAARRGGBB` value. -/
def qRed (rgb : Nat) : Nat := (rgb >>> 16) &&& 0xff
/-- The toolkit's `qGreen`: bits 8..15. -/
def qGreen (rgb : Nat) : Nat := (rgb >>> 8) &&& 0xff
/-- The toolkit's `qBlue`: bits 0..7. -/
def qBlue (rgb : Nat) : Nat := rgb &&& 0xff
/-- The toolkit's `qAlpha`: the bits from 24 up of a 32-bit value. -/
def qAlpha (rgb : Nat) : Nat := rgb >>> 24
/-- The toolkit's `qRgba(r, g, b, a)`. -/
def qRgba (r g b a : Nat) : Nat :=
  ((a &&& 0xff) <<< 24) ||| ((r &&& 0xff) <<< 16) ||| ((g &&& 0xff) <<< 8) ||| (b &&& 0xff)

namespace QColor

/-- `QColor::fromRgba(QRgb)`; a `QRgb` has 32 bits. -/
def fromRgba (rgba : Nat) : QColor := ⟨rgba % 2 ^ 32⟩

/-- The constructor `QColor(int r, int g, int b, int a)`, for components in 0..255. -/
def ofComponents (r g b a : Nat) : QColor := ⟨qRgba r g b a⟩

/-- `QColor::red`. -/
def red (c : QColor) : Nat := qRed c.rgba
/-- `QColor::green`. -/
def green (c : QColor) : Nat := qGreen c.rgba
/-- `QColor::blue`. -/
def blue (c : QColor) : Nat := qBlue c.rgba
/-- `QColor::alpha`. -/
def alpha (c : QColor) : Nat := qAlpha c.rgba

/-- `QColor::isValid`: the colours of this type are the ones built from an RGBA
value or from components, and those are valid. -/
def isValid (_c : QColor) : Bool := true

end QColor

/-- `Utils::getAccentColor_windows`; `alternative` is the value of
`getDwmColorizationColor()`, `registryIsValid` that of `registry.isValid()`, and
`value` the registry value `kAccentColor` (`none` for an invalid `QVariant`),
read as a `DWORD`. -/
def getAccentColor_windows (alternative : QColor) (registryIsValid : Bool)
    (value : Option Nat) : QColor :=
  if !registryIsValid then alternative
  else
    match value with
    | none => alternative
    | some v =>
      let abgr := QColor.fromRgba (v % 2 ^ 32)
      if !abgr.isValid then alternative
      else QColor.ofComponents abgr.blue abgr.green abgr.red abgr.alpha

/-! ## Vertical blank phase (`Utils::syncWmPaintWithDwm`) -/

/-- The values `w` and `m` of `Utils::syncWmPaintWithDwm` for
`period = dti.qpcRefreshPeriod` and `dt = dti.qpcVBlank - now1.QuadPart`;
the division of C++ truncates towards zero (no 64-bit overflow is modelled). -/
def vblankPhase (period dt : Int) : Int × Int :=
  let w := if dt ≥ 0 then Int.tdiv dt period else -1 + Int.tdiv dt period
  let m := dt - period * w
  (w, m)

/-! ## Sequences of hook calls (`src/core/utils_win.cpp`) -/

/-- A call that changes the hook table. -/
inductive HookCall
  | installSystemMenuHook (windowId : Nat) (params : Option SystemParameters)
  | uninstallSystemMenuHook (windowId : Nat)
  | removeSysMenuHook (windowId : Nat)

/-- The window procedures and the hook table after one call, every Win32 call
succeeding. -/
def HookCall.apply (hookProc : Nat) (st : WindowProcs × HookTable) (call : HookCall) :
    WindowProcs × HookTable :=
  match call with
  | .installSystemMenuHook windowId params =>
    FramelessHelper.installSystemMenuHook hookProc true st.1 st.2 windowId params
  | .uninstallSystemMenuHook windowId =>
    FramelessHelper.uninstallSystemMenuHook true st.1 st.2 windowId
  | .removeSysMenuHook windowId => FramelessHelper.removeSysMenuHook st.1 st.2 windowId

/-- The window procedures and the hook table after a sequence of calls. -/
def runHookCalls (hookProc : Nat) (st : WindowProcs × HookTable) (calls : List HookCall) :
    WindowProcs × HookTable :=
  calls.foldl (HookCall.apply hookProc) st

/-! ## DPI awareness (`Utils::tryToEnableHighestDpiAwarenessLevel`) -/

/-- The enum `Global::DpiAwareness`, with the values
`Utils::getDpiAwarenessForCurrentProcess` returns. -/
inductive DpiAwareness
  | Unknown
  | Unaware
  | System
  | PerMonitor
  | PerMonitorVersion2
  | Unaware_GdiScaled
deriving DecidableEq, Repr

/-- A request `tryToEnableHighestDpiAwarenessLevel` makes to the system. -/
inductive DpiRequest
  | SetProcessDpiAwarenessContext (level : DpiAwareness)
  | SetProcessDpiAwareness (level : DpiAwareness)
  | SetProcessDPIAware
deriving DecidableEq, Repr

/-- The awareness level a request asks for; `SetProcessDPIAware` asks for
system awareness. -/
def DpiRequest.level (q : DpiRequest) : DpiAwareness :=
  match q with
  | .SetProcessDpiAwarenessContext level => level
  | .SetProcessDpiAwareness level => level
  | .SetProcessDPIAware => .System

section HitTest

open FramelessQuickHelperPrivate

theorem QRegion.ofRect_mem (r : QRect) (p : QPoint) :
    (QRegion.ofRect r).mem p = true ↔ r.Inside p := by
  unfold QRegion.ofRect QRect.isEmpty QRect.Inside
  by_cases h1 : r.x1 > r.x2
  · simp [h1]; intro h2 h3; omega
  · by_cases h2 : r.y1 > r.y2
    · simp [h2]; intro h3 h4 h5; omega
    · simp [h1, h2]

/-- On a rectangle whose width and height are not negative, the toolkit's
`QRect::contains` is membership among the pixels of the rectangle. -/
theorem QRect.contains_iff_inside (r : QRect) (p : QPoint)
    (hw : r.x1 - 1 ≤ r.x2) (hh : r.y1 - 1 ≤ r.y2) :
    r.contains p = true ↔ r.Inside p := by
  unfold QRect.contains QRect.Inside
  have h1 : ¬ r.x2 < r.x1 - 1 := by omega
  have h2 : ¬ r.y2 < r.y1 - 1 := by omega
  simp only [h1, h2, if_false]
  by_cases hx : p.x < r.x1 ∨ p.x > r.x2
  · simp [hx]; omega
  · by_cases hy : p.y < r.y1 ∨ p.y > r.y2
    · simp [hx, hy]; omega
    · simp [hx, hy]; omega

theorem subtractItems_mem (items : List (Option QQuickItem)) (region : QRegion) (p : QPoint) :
    (subtractItems region items).mem p = true ↔
      region.mem p = true ∧
        ∀ item ∈ items, isActiveItem item = true → ¬ (mapItemGeometryToScene item).Inside p := by
  induction items generalizing region with
  | nil => simp [subtractItems]
  | cons a rest ih =>
    have hstep : subtractItems region (a :: rest) =
        subtractItems
          (if isActiveItem a then region.subtractRect (mapItemGeometryToScene a) else region)
          rest := by
      simp [subtractItems]
    rw [hstep, ih]
    by_cases ha : isActiveItem a = true
    · simp only [ha, if_true, QRegion.subtractRect, Bool.and_eq_true, Bool.not_eq_true',
        List.mem_cons, forall_eq_or_imp, true_implies]
      rw [← Bool.not_eq_true, QRegion.ofRect_mem]
      tauto
    · simp only [ha, List.mem_cons, forall_eq_or_imp]
      simp

theorem subtractRects_mem (rects : List QRect) (region : QRegion) (p : QPoint) :
    (subtractRects region rects).mem p = true ↔
      region.mem p = true ∧ ∀ rect ∈ rects, rect.isValid = true → ¬ rect.Inside p := by
  induction rects generalizing region with
  | nil => simp [subtractRects]
  | cons a rest ih =>
    have hstep : subtractRects region (a :: rest) =
        subtractRects (if a.isValid then region.subtractRect a else region) rest := by
      simp [subtractRects]
    rw [hstep, ih]
    by_cases ha : a.isValid = true
    · simp only [ha, if_true, QRegion.subtractRect, Bool.and_eq_true, Bool.not_eq_true',
        List.mem_cons, forall_eq_or_imp, true_implies]
      rw [← Bool.not_eq_true, QRegion.ofRect_mem]
      tauto
    · simp only [ha, List.mem_cons, forall_eq_or_imp]
      simp

theorem isActiveItem_iff (item : Option QQuickItem) :
    isActiveItem item = true ↔
      ∃ i, item = some i ∧ i.isVisible = true ∧ i.isEnabled = true := by
  cases item with
  | none => simp [isActiveItem]
  | some i => simp [isActiveItem]

/-- The pixels of a rectangle, spelled out on its corner coordinates. -/
theorem QRect.inside_iff (r : QRect) (p : QPoint) :
    r.Inside p ↔ (r.x1 ≤ p.x ∧ p.x ≤ r.x2 ∧ r.y1 ≤ p.y ∧ p.y ≤ r.y2) :=
  Iff.rfl

/-- `QRect::isValid`, spelled out on the corner coordinates. -/
theorem QRect.isValid_iff (r : QRect) :
    r.isValid = true ↔ (r.x1 ≤ r.x2 ∧ r.y1 ≤ r.y2) := by
  simp [QRect.isValid]

/-- For two rectangles that both have a pixel, `QRect::intersects` says that
their extents overlap on both axes. -/
theorem QRect.intersects_iff_of_valid (a b : QRect)
    (ha : a.x1 ≤ a.x2 ∧ a.y1 ≤ a.y2) (hb : b.x1 ≤ b.x2 ∧ b.y1 ≤ b.y2) :
    a.intersects b = true ↔
      (a.x1 ≤ b.x2 ∧ b.x1 ≤ a.x2 ∧ a.y1 ≤ b.y2 ∧ b.y1 ≤ a.y2) := by
  obtain ⟨ha1, ha2⟩ := ha
  obtain ⟨hb1, hb2⟩ := hb
  have n1 : ¬ a.x2 = a.x1 - 1 := by omega
  have n2 : ¬ b.x2 = b.x1 - 1 := by omega
  have n3 : ¬ a.x2 - a.x1 + 1 < 0 := by omega
  have n4 : ¬ b.x2 - b.x1 + 1 < 0 := by omega
  have n5 : ¬ a.y2 - a.y1 + 1 < 0 := by omega
  have n6 : ¬ b.y2 - b.y1 + 1 < 0 := by omega
  unfold QRect.intersects QRect.isNull
  simp only [n1, n2, n3, n4, n5, n6, decide_False, Bool.false_and, Bool.or_self, if_false,
    Bool.false_eq_true]
  by_cases hx : a.x1 > b.x2 ∨ b.x1 > a.x2
  · simp only [hx, if_true, Bool.false_eq_true, false_iff]
    omega
  · by_cases hy : a.y1 > b.y2 ∨ b.y1 > a.y2
    · simp only [hx, hy, if_true, if_false, Bool.false_eq_true, false_iff]
      omega
    · simp only [hx, hy, if_false, true_iff]
      omega

/-- A null rectangle (width and height zero) intersects no rectangle, and no
rectangle intersects it. -/
theorem QRect.intersects_of_null (a b : QRect)
    (h : (a.x2 = a.x1 - 1 ∧ a.y2 = a.y1 - 1) ∨ (b.x2 = b.x1 - 1 ∧ b.y2 = b.y1 - 1)) :
    a.intersects b = false := by
  unfold QRect.intersects QRect.isNull
  rcases h with ⟨h1, h2⟩ | ⟨h1, h2⟩ <;> simp [h1, h2]

/-- The window data `getWindowData` hands out for a helper in a window: the
table entry found for the window id, a default-constructed entry otherwise. -/
theorem getWindowData_eq (g : FramelessQuickHelperInternal) (d : FramelessQuickHelperPrivate)
    (window : QQuickWindow) (hwin : d.window = some window) :
    getWindowData g d =
      some (((List.find? (fun e => e.1 == window.winId) g).map Prod.snd).getD {}) := by
  unfold getWindowData FramelessQuickHelperInternal.find
  rw [hwin]
  dsimp only
  cases List.find? (fun e => e.1 == window.winId) g <;> rfl

/-- The system buttons the draggable area leaves out are the window icon, help,
minimize, maximize and close buttons of the window data. -/
theorem mem_systemButtons_iff (data : FramelessQuickHelperData) (b : QQuickItem) :
    some b ∈ systemButtons data ↔
      (data.windowIconButton = some b ∨ data.contextHelpButton = some b ∨
        data.minimizeButton = some b ∨ data.maximizeButton = some b ∨
        data.closeButton = some b) := by
  simp only [systemButtons, List.mem_cons, List.mem_singleton, List.not_mem_nil, or_false]
  constructor <;> intro h <;> rcases h with h | h | h | h | h <;> simp [h]

/-- C1: `isInTitleBarDraggableArea(pos)` for a helper attached to a window,
`data` being the table entry of the window (default-constructed when absent).
The result is false when no title bar item is set, when the title bar item is
invisible or disabled, or when the title bar's scene rectangle does not
intersect the window rectangle (0,0,window size); otherwise the result is true
exactly when `pos` is a pixel of the title bar's scene rectangle and of none of
(a) the scene rectangles of the visible and enabled window icon, help,
minimize, maximize and close buttons, (b) the scene rectangles of the visible
and enabled hit-test-visible items, and (c) the valid hit-test-visible
rectangles. -/
theorem isInTitleBarDraggableArea_spec (g : FramelessQuickHelperInternal)
    (d : FramelessQuickHelperPrivate) (window : QQuickWindow)
    (hwin : d.window = some window) (pos : QPoint) :
    let data := ((List.find? (fun e => e.1 == window.winId) g).map Prod.snd).getD {}
    let windowRect : QRect := ⟨0, 0, window.size.width - 1, window.size.height - 1⟩
    (data.titleBarItem = none → isInTitleBarDraggableArea g d pos = false) ∧
    (∀ tb, data.titleBarItem = some tb →
      ((tb.isVisible = false ∨ tb.isEnabled = false ∨
          tb.sceneGeometry.intersects windowRect = false) →
        isInTitleBarDraggableArea g d pos = false) ∧
      (tb.isVisible = true → tb.isEnabled = true →
        tb.sceneGeometry.intersects windowRect = true →
        (isInTitleBarDraggableArea g d pos = true ↔
          (tb.sceneGeometry.x1 ≤ pos.x ∧ pos.x ≤ tb.sceneGeometry.x2 ∧
            tb.sceneGeometry.y1 ≤ pos.y ∧ pos.y ≤ tb.sceneGeometry.y2) ∧
          (∀ b, (data.windowIconButton = some b ∨ data.contextHelpButton = some b ∨
                data.minimizeButton = some b ∨ data.maximizeButton = some b ∨
                data.closeButton = some b) →
            b.isVisible = true → b.isEnabled = true →
            ¬ (b.sceneGeometry.x1 ≤ pos.x ∧ pos.x ≤ b.sceneGeometry.x2 ∧
              b.sceneGeometry.y1 ≤ pos.y ∧ pos.y ≤ b.sceneGeometry.y2)) ∧
          (∀ i, some i ∈ data.hitTestVisibleItems → i.isVisible = true → i.isEnabled = true →
            ¬ (i.sceneGeometry.x1 ≤ pos.x ∧ pos.x ≤ i.sceneGeometry.x2 ∧
              i.sceneGeometry.y1 ≤ pos.y ∧ pos.y ≤ i.sceneGeometry.y2)) ∧
          (∀ r ∈ data.hitTestVisibleRects, (r.x1 ≤ r.x2 ∧ r.y1 ≤ r.y2) →
            ¬ (r.x1 ≤ pos.x ∧ pos.x ≤ r.x2 ∧ r.y1 ≤ pos.y ∧ pos.y ≤ r.y2))))) := by
  intro data windowRect
  have hrect : QRect.ofPointSize ⟨0, 0⟩ window.size = windowRect := by
    simp [QRect.ofPointSize, windowRect]
  have hdata : getWindowData g d = some data := getWindowData_eq g d window hwin
  have hactive : ∀ (items : List (Option QQuickItem)),
      (∀ item ∈ items, isActiveItem item = true → ¬ (mapItemGeometryToScene item).Inside pos) ↔
      (∀ i, some i ∈ items → i.isVisible = true → i.isEnabled = true →
        ¬ (i.sceneGeometry.x1 ≤ pos.x ∧ pos.x ≤ i.sceneGeometry.x2 ∧
          i.sceneGeometry.y1 ≤ pos.y ∧ pos.y ≤ i.sceneGeometry.y2)) := by
    intro items
    constructor
    · intro h i hi hv he
      exact h (some i) hi ((isActiveItem_iff _).2 ⟨i, rfl, hv, he⟩)
    · intro h item hitem hact
      obtain ⟨i, rfl, hv, he⟩ := (isActiveItem_iff _).1 hact
      exact h i hitem hv he
  refine ⟨?_, ?_⟩
  · intro hnone
    simp [isInTitleBarDraggableArea, hdata, hnone]
  · intro tb htb
    constructor
    · rintro (hv | he | hi)
      · simp [isInTitleBarDraggableArea, hdata, htb, hv]
      · simp [isInTitleBarDraggableArea, hdata, htb, he]
      · simp [isInTitleBarDraggableArea, hdata, htb, hwin, hrect, mapItemGeometryToScene, hi]
    · intro hv he hi
      have hval : isInTitleBarDraggableArea g d pos =
          (let region := subtractItems (QRegion.ofRect tb.sceneGeometry) (systemButtons data)
           let region := subtractItems region data.hitTestVisibleItems
           let region := subtractRects region data.hitTestVisibleRects
           region.mem pos) := by
        simp only [isInTitleBarDraggableArea, hdata, htb, hwin, hv, he, hrect,
          mapItemGeometryToScene, hi, QRegion.contains]
        cases hI : data.hitTestVisibleItems <;> cases hR : data.hitTestVisibleRects <;>
          simp [subtractItems, subtractRects]
      rw [hval]
      simp only []
      rw [subtractRects_mem, subtractItems_mem, subtractItems_mem, QRegion.ofRect_mem,
        hactive, hactive]
      simp only [mem_systemButtons_iff, QRect.inside_iff, QRect.isValid_iff]
      tauto

/-- C1, at a concrete window: a 100x30 title bar in a 100x80 window whose close
button covers the right end of the bar.  The point (10,10) is draggable and the
point (80,10), inside the close button, is not. -/
theorem isInTitleBarDraggableArea_spec_witness :
    isInTitleBarDraggableArea
      [(1, { titleBarItem := some ⟨true, true, ⟨0, 0, 99, 29⟩⟩,
             closeButton := some ⟨true, true, ⟨70, 0, 99, 29⟩⟩ })]
      ⟨some ⟨1, ⟨100, 80⟩, 0, ⟨0, 0⟩, ⟨0, 0⟩⟩⟩ ⟨10, 10⟩ = true ∧
    isInTitleBarDraggableArea
      [(1, { titleBarItem := some ⟨true, true, ⟨0, 0, 99, 29⟩⟩,
             closeButton := some ⟨true, true, ⟨70, 0, 99, 29⟩⟩ })]
      ⟨some ⟨1, ⟨100, 80⟩, 0, ⟨0, 0⟩, ⟨0, 0⟩⟩⟩ ⟨80, 10⟩ = false := by
  constructor
  · refine (((isInTitleBarDraggableArea_spec
      [(1, { titleBarItem := some ⟨true, true, ⟨0, 0, 99, 29⟩⟩,
             closeButton := some ⟨true, true, ⟨70, 0, 99, 29⟩⟩ })]
      ⟨some ⟨1, ⟨100, 80⟩, 0, ⟨0, 0⟩, ⟨0, 0⟩⟩⟩ ⟨1, ⟨100, 80⟩, 0, ⟨0, 0⟩, ⟨0, 0⟩⟩ rfl
      ⟨10, 10⟩).2 ⟨true, true, ⟨0, 0, 99, 29⟩⟩ rfl).2 rfl rfl (by decide)).2
        ⟨by decide, ?_, ?_, ?_⟩
    · intro b hb _ _
      have hb2 : b = ⟨true, true, ⟨70, 0, 99, 29⟩⟩ := by
        rcases hb with h | h | h | h | h
        · cases h
        · cases h
        · cases h
        · cases h
        · exact (Option.some.inj h).symm
      subst hb2
      decide
    · intro i hi
      cases hi
    · intro r hr
      cases hr
  · apply Bool.eq_false_iff.2
    intro h
    exact ((((isInTitleBarDraggableArea_spec
      [(1, { titleBarItem := some ⟨true, true, ⟨0, 0, 99, 29⟩⟩,
             closeButton := some ⟨true, true, ⟨70, 0, 99, 29⟩⟩ })]
      ⟨some ⟨1, ⟨100, 80⟩, 0, ⟨0, 0⟩, ⟨0, 0⟩⟩⟩ ⟨1, ⟨100, 80⟩, 0, ⟨0, 0⟩, ⟨0, 0⟩⟩ rfl
      ⟨80, 10⟩).2 ⟨true, true, ⟨0, 0, 99, 29⟩⟩ rfl).2 rfl rfl (by decide)).1 h).2.1
        ⟨true, true, ⟨70, 0, 99, 29⟩⟩ (Or.inr (Or.inr (Or.inr (Or.inr rfl)))) rfl rfl
        (by decide)

/-- The draggable area evaluated on a 100x80 window with a 100x30 title bar, a
close button, a visible and a hidden hit-test-visible item and two
hit-test-visible rectangles, one of them not valid; then with the title bar
outside the window, with a disabled title bar, and with no table entry. -/
theorem isInTitleBarDraggableArea_examples :
    [(10, 10), (80, 10), (25, 5), (25, 15), (42, 3), (52, 3), (5, 5), (100, 5), (-1, 0),
      (0, 0), (99, 29), (69, 29), (70, 29), (10, 30)].map
      (fun (p : Int × Int) =>
        isInTitleBarDraggableArea
          [(1, { titleBarItem := some ⟨true, true, ⟨0, 0, 99, 29⟩⟩,
                 closeButton := some ⟨true, true, ⟨70, 0, 99, 29⟩⟩,
                 hitTestVisibleItems :=
                   [none, some ⟨false, true, ⟨50, 0, 55, 29⟩⟩, some ⟨true, true, ⟨40, 0, 45, 29⟩⟩],
                 hitTestVisibleRects := [⟨20, 0, 30, 10⟩, ⟨5, 5, 4, 4⟩] })]
          ⟨some ⟨1, ⟨100, 80⟩, 0, ⟨0, 0⟩, ⟨0, 0⟩⟩⟩ ⟨p.1, p.2⟩) =
      [true, false, false, true, false, true, true, false, false,
        true, false, true, false, false] ∧
    isInTitleBarDraggableArea
      [(1, { titleBarItem := some ⟨true, true, ⟨200, 0, 299, 29⟩⟩ })]
      ⟨some ⟨1, ⟨100, 80⟩, 0, ⟨0, 0⟩, ⟨0, 0⟩⟩⟩ ⟨210, 10⟩ = false ∧
    isInTitleBarDraggableArea
      [(1, { titleBarItem := some ⟨true, false, ⟨0, 0, 99, 29⟩⟩ })]
      ⟨some ⟨1, ⟨100, 80⟩, 0, ⟨0, 0⟩, ⟨0, 0⟩⟩⟩ ⟨10, 10⟩ = false ∧
    isInTitleBarDraggableArea
      [(2, { titleBarItem := some ⟨true, true, ⟨0, 0, 99, 29⟩⟩ })]
      ⟨some ⟨1, ⟨100, 80⟩, 0, ⟨0, 0⟩, ⟨0, 0⟩⟩⟩ ⟨10, 10⟩ = false := by
  refine ⟨by decide, by decide, by decide, by decide⟩

end HitTest

section SystemMenu

/-- C2: `Utils::showSystemMenu`, for a window with a system menu, leaves the
menu items in these states for every combination of maxOrFull, fixedSize,
disableRestore, disableMinimize and disableMaximize: SC_RESTORE enabled iff
maxOrFull and not fixedSize and not disableRestore; SC_MOVE enabled iff not
maxOrFull; SC_SIZE enabled iff not maxOrFull, not fixedSize and neither
disableMinimize nor disableMaximize; SC_MINIMIZE enabled iff not
disableMinimize; SC_MAXIMIZE enabled iff not maxOrFull, not fixedSize and not
disableMaximize; SC_CLOSE always enabled. -/
theorem showSystemMenu_menu_items (env : SystemMenuEnv) (windowId : Nat) (pos : QPoint)
    (selectFirstEntry : Bool) (params : SystemParameters)
    (hid : windowId ≠ 0) (hmenu : env.hasSystemMenu = true) :
    let maxOrFull := env.isMaximized || env.isFullScreen
    let fixedSize := params.isWindowFixedSize
    let disableRestore := params.getProperty .kSysMenuDisableRestoreVar false
    let disableMinimize := params.getProperty .kSysMenuDisableMinimizeVar false
    let disableMaximize := params.getProperty .kSysMenuDisableMaximizeVar false
    let calls := showSystemMenu env windowId pos selectFirstEntry (some params)
    menuItemEnabled calls SC_RESTORE = some (maxOrFull && !fixedSize && !disableRestore) ∧
    menuItemEnabled calls SC_MOVE = some (!maxOrFull) ∧
    menuItemEnabled calls SC_SIZE =
      some (!maxOrFull && !fixedSize && !disableMinimize && !disableMaximize) ∧
    menuItemEnabled calls SC_MINIMIZE = some (!disableMinimize) ∧
    menuItemEnabled calls SC_MAXIMIZE = some (!maxOrFull && !fixedSize && !disableMaximize) ∧
    menuItemEnabled calls SC_CLOSE = some true := by
  intro maxOrFull fixedSize disableRestore disableMinimize disableMaximize calls
  have htail : ∀ (front : List MenuCall) (item : Nat),
      menuItemEnabled
        (front ++ (if env.trackPopupMenuResult = 0 then []
          else [MenuCall.PostMessageW WM_SYSCOMMAND env.trackPopupMenuResult 0])) item =
      menuItemEnabled front item := by
    intro front item
    by_cases h0 : env.trackPopupMenuResult = 0 <;> simp [menuItemEnabled, h0]
  simp only [calls, maxOrFull, fixedSize, disableRestore, disableMinimize, disableMaximize,
    showSystemMenu, hid, hmenu, if_false, Bool.not_true, Bool.false_eq_true, htail]
  generalize env.isMaximized = a
  generalize env.isFullScreen = b
  generalize params.isWindowFixedSize = c
  generalize params.getProperty .kSysMenuDisableRestoreVar false = r
  generalize params.getProperty .kSysMenuDisableMinimizeVar false = m
  generalize params.getProperty .kSysMenuDisableMaximizeVar false = x
  cases a <;> cases b <;> cases c <;> cases r <;> cases m <;> cases x <;>
    cases selectFirstEntry <;> exact ⟨rfl, rfl, rfl, rfl, rfl, rfl⟩

/-- C2, at a concrete window: a maximized, resizable window with no item
disabled by the user. -/
theorem showSystemMenu_menu_items_witness :
    menuItemEnabled
      (showSystemMenu ⟨true, true, false, false, 0⟩ 7 ⟨3, 4⟩ false
        (some ⟨false, fun _ => false, fun _ dflt => dflt⟩)) SC_RESTORE = some true :=
  (showSystemMenu_menu_items ⟨true, true, false, false, 0⟩ 7 ⟨3, 4⟩ false
    ⟨false, fun _ => false, fun _ dflt => dflt⟩ (by decide) rfl).1

end SystemMenu

section SystemMenuHook

theorem HookTable.mem_of_constFind {t : HookTable} {windowId : Nat} {data : Win32UtilsData}
    (h : t.constFind windowId = some data) : (windowId, data) ∈ t := by
  unfold HookTable.constFind at h
  cases hf : List.find? (fun e => e.1 == windowId) t with
  | none => rw [hf] at h; cases h
  | some e =>
    rw [hf] at h
    have hmem := List.mem_of_find?_eq_some hf
    have hkey := List.find?_some hf
    simp only [Option.map_some', Option.some.injEq] at h
    simp only [beq_iff_eq] at hkey
    obtain ⟨k, v⟩ := e
    simp only at h hkey
    subst h; subst hkey
    exact hmem

theorem HookTable.wellFormed_nil : HookTable.WellFormed [] := by
  intro e he
  cases he

theorem HookTable.wellFormed_erase {t : HookTable} (h : t.WellFormed) (windowId : Nat) :
    (t.erase windowId).WellFormed := by
  intro e he
  exact h e (List.mem_of_mem_filter he)

/-- The hook table stays well formed under `installSystemMenuHook`: the entry
it adds has a non-null window id and a non-null original procedure. -/
theorem installSystemMenuHook_wellFormed (hookProc : Nat) (setOk : Bool) (procs : WindowProcs)
    (table : HookTable) (windowId : Nat) (params : Option SystemParameters)
    (h : table.WellFormed) :
    (installSystemMenuHook hookProc setOk procs table windowId params).2.WellFormed := by
  unfold installSystemMenuHook
  cases params with
  | none => exact h
  | some params =>
    dsimp only
    split
    · exact h
    · rename_i hid
      split
      · exact h
      · split
        · exact h
        · rename_i hproc
          split
          · exact h
          · intro e he
            simp only [HookTable.insert, List.mem_cons] at he
            rcases he with rfl | he
            · exact ⟨hid, hproc⟩
            · exact h e (List.mem_of_mem_filter he)

/-- The hook table stays well formed under `uninstallSystemMenuHook`. -/
theorem uninstallSystemMenuHook_wellFormed (setOk : Bool) (procs : WindowProcs)
    (table : HookTable) (windowId : Nat) (h : table.WellFormed) :
    (uninstallSystemMenuHook setOk procs table windowId).2.WellFormed := by
  unfold uninstallSystemMenuHook
  split
  · exact h
  · split
    · exact h
    · split
      · exact h
      · split
        · exact h
        · exact HookTable.wellFormed_erase h windowId

/-- The hook table stays well formed under `removeSysMenuHook`. -/
theorem removeSysMenuHook_wellFormed (procs : WindowProcs) (table : HookTable)
    (windowId : Nat) (h : table.WellFormed) :
    (removeSysMenuHook procs table windowId).2.WellFormed := by
  unfold removeSysMenuHook
  split
  · exact h
  · split
    · exact h
    · exact HookTable.wellFormed_erase h windowId

/-- The values of the Win32 constants the hook compares its arguments with. -/
theorem hook_constants :
    WM_RBUTTONUP = 0x0205 ∧ WM_NCRBUTTONUP = 0x00A5 ∧ WM_SYSCOMMAND = 0x0112 ∧
    WM_KEYDOWN = 0x0100 ∧ WM_SYSKEYDOWN = 0x0104 ∧ HTCAPTION = 2 ∧ SC_KEYMENU = 0xF100 ∧
    VK_MENU = 0x12 ∧ VK_SPACE = 0x20 := by
  decide

/-- `GET_X_LPARAM` and `GET_Y_LPARAM` give back the signed 16-bit coordinates a
mouse message packs into the low and high word of `lParam`, whatever the bits
above them. -/
theorem GET_XY_LPARAM_of_point (x y upper : Int)
    (hx : -32768 ≤ x ∧ x < 32768) (hy : -32768 ≤ y ∧ y < 32768) :
    GET_X_LPARAM (upper * 4294967296 + (y % 65536) * 65536 + x % 65536) = x ∧
    GET_Y_LPARAM (upper * 4294967296 + (y % 65536) * 65536 + x % 65536) = y := by
  unfold GET_X_LPARAM GET_Y_LPARAM toInt16
  constructor
  · split_ifs <;> omega
  · split_ifs <;> omega

theorem hookDecision_isSome (env : HookEnv) (data : Win32UtilsData) (uMsg wParam : Nat)
    (lParam : Int) :
    (hookDecision env data uMsg wParam lParam).isSome = true ↔
      ((uMsg = WM_RBUTTONUP ∧
          data.params.isInsideTitleBarDraggableArea
            (env.fromNativeLocalPosition ⟨GET_X_LPARAM lParam, GET_Y_LPARAM lParam⟩) = true ∧
          (env.clientToScreen ⟨GET_X_LPARAM lParam, GET_Y_LPARAM lParam⟩).isSome = true) ∨
        (uMsg = WM_NCRBUTTONUP ∧ wParam = HTCAPTION) ∨
        (uMsg = WM_SYSCOMMAND ∧ wParam &&& 0xFFF0 = SC_KEYMENU ∧ lParam = (VK_SPACE : Int)) ∨
        ((uMsg = WM_KEYDOWN ∨ uMsg = WM_SYSKEYDOWN) ∧
          (wParam = VK_MENU ∨ env.getKeyStateNegative VK_MENU = true) ∧
          (wParam = VK_SPACE ∨ env.getKeyStateNegative VK_SPACE = true))) := by
  unfold hookDecision getNativePosFromMouse
  by_cases h1 : uMsg = WM_RBUTTONUP
  · subst h1
    simp only [if_true, true_and]
    have e2 : ¬ WM_RBUTTONUP = WM_NCRBUTTONUP := by decide
    have e3 : ¬ WM_RBUTTONUP = WM_SYSCOMMAND := by decide
    have e4 : ¬ WM_RBUTTONUP = WM_KEYDOWN := by decide
    have e5 : ¬ WM_RBUTTONUP = WM_SYSKEYDOWN := by decide
    simp only [e2, e3, e4, e5, false_and, false_or, or_false]
    by_cases hin : data.params.isInsideTitleBarDraggableArea
        (env.fromNativeLocalPosition ⟨GET_X_LPARAM lParam, GET_Y_LPARAM lParam⟩) = true
    · simp only [hin, if_true, true_and]
      cases env.clientToScreen ⟨GET_X_LPARAM lParam, GET_Y_LPARAM lParam⟩ <;> simp
    · simp [hin]
  · by_cases h2 : uMsg = WM_NCRBUTTONUP
    · subst h2
      have e3 : ¬ WM_NCRBUTTONUP = WM_SYSCOMMAND := by decide
      have e4 : ¬ WM_NCRBUTTONUP = WM_KEYDOWN := by decide
      have e5 : ¬ WM_NCRBUTTONUP = WM_SYSKEYDOWN := by decide
      simp only [h1, e3, e4, e5, if_false, if_true, false_and, false_or, or_false, true_and]
      by_cases hw : wParam = HTCAPTION <;> simp [hw]
    · by_cases h3 : uMsg = WM_SYSCOMMAND
      · subst h3
        have e4 : ¬ WM_SYSCOMMAND = WM_KEYDOWN := by decide
        have e5 : ¬ WM_SYSCOMMAND = WM_SYSKEYDOWN := by decide
        simp only [h1, h2, e4, e5, if_false, if_true, false_and, false_or, or_false, true_and]
        by_cases hc : wParam &&& 0xFFF0 = SC_KEYMENU ∧ lParam = (VK_SPACE : Int) <;> simp [hc]
      · by_cases h4 : uMsg = WM_KEYDOWN ∨ uMsg = WM_SYSKEYDOWN
        · simp only [h1, h2, h3, h4, if_false, if_true, false_and, false_or, true_and]
          by_cases ha : wParam = VK_MENU <;> by_cases hs : wParam = VK_SPACE <;>
            cases env.getKeyStateNegative VK_MENU <;>
            cases env.getKeyStateNegative VK_SPACE <;> simp [ha, hs]
        · simp [h1, h2, h3, h4]

/-- C3: `SystemMenuHookWindowProc` on a hook table whose entries are well formed
(as `installSystemMenuHook` makes them).  For a window in the table the hook
calls `Utils::showSystemMenu` and returns 0, without calling the original
procedure, exactly when the message is WM_RBUTTONUP at a position (the signed
low and high words of lParam, mapped by `Utils::fromNativeLocalPosition`)
inside the title bar draggable area with ClientToScreen succeeding,
WM_NCRBUTTONUP with
wParam == HTCAPTION, WM_SYSCOMMAND with (wParam & 0xFFF0) == SC_KEYMENU and
lParam == VK_SPACE, or WM_KEYDOWN/WM_SYSKEYDOWN with Alt and Space pressed;
every other message goes to the stored original procedure with hWnd, uMsg,
wParam and lParam unchanged; a window that is not in the table goes to
`DefWindowProcW`. -/
theorem SystemMenuHookWindowProc_spec (env : HookEnv) (table : HookTable)
    (hwf : table.WellFormed) (hWnd uMsg wParam : Nat) (lParam : Int) :
    (∀ data, table.constFind hWnd = some data →
      ((uMsg = WM_RBUTTONUP ∧
          data.params.isInsideTitleBarDraggableArea
            (env.fromNativeLocalPosition ⟨GET_X_LPARAM lParam, GET_Y_LPARAM lParam⟩) = true ∧
          (env.clientToScreen ⟨GET_X_LPARAM lParam, GET_Y_LPARAM lParam⟩).isSome = true) ∨
        (uMsg = WM_NCRBUTTONUP ∧ wParam = HTCAPTION) ∨
        (uMsg = WM_SYSCOMMAND ∧ wParam &&& 0xFFF0 = SC_KEYMENU ∧ lParam = (VK_SPACE : Int)) ∨
        ((uMsg = WM_KEYDOWN ∨ uMsg = WM_SYSKEYDOWN) ∧
          (wParam = VK_MENU ∨ env.getKeyStateNegative VK_MENU = true) ∧
          (wParam = VK_SPACE ∨ env.getKeyStateNegative VK_SPACE = true)) →
        ∃ nativeGlobalPos broughtByKeyboard,
          SystemMenuHookWindowProc env table hWnd uMsg wParam lParam =
            .showSystemMenu hWnd nativeGlobalPos broughtByKeyboard) ∧
      (¬ ((uMsg = WM_RBUTTONUP ∧
          data.params.isInsideTitleBarDraggableArea
            (env.fromNativeLocalPosition ⟨GET_X_LPARAM lParam, GET_Y_LPARAM lParam⟩) = true ∧
          (env.clientToScreen ⟨GET_X_LPARAM lParam, GET_Y_LPARAM lParam⟩).isSome = true) ∨
        (uMsg = WM_NCRBUTTONUP ∧ wParam = HTCAPTION) ∨
        (uMsg = WM_SYSCOMMAND ∧ wParam &&& 0xFFF0 = SC_KEYMENU ∧ lParam = (VK_SPACE : Int)) ∨
        ((uMsg = WM_KEYDOWN ∨ uMsg = WM_SYSKEYDOWN) ∧
          (wParam = VK_MENU ∨ env.getKeyStateNegative VK_MENU = true) ∧
          (wParam = VK_SPACE ∨ env.getKeyStateNegative VK_SPACE = true))) →
        SystemMenuHookWindowProc env table hWnd uMsg wParam lParam =
          .CallWindowProcW data.originalWindowProc hWnd uMsg wParam lParam)) ∧
    (hWnd ≠ 0 → table.constFind hWnd = none →
      SystemMenuHookWindowProc env table hWnd uMsg wParam lParam =
        .DefWindowProcW hWnd uMsg wParam lParam) := by
  constructor
  · intro data hfind
    obtain ⟨hid, hproc⟩ := hwf _ (HookTable.mem_of_constFind hfind)
    simp only at hid hproc
    rw [← hookDecision_isSome]
    constructor
    · intro hsome
      obtain ⟨⟨pos, kb⟩, hdec⟩ := Option.isSome_iff_exists.1 hsome
      exact ⟨pos, kb, by simp [SystemMenuHookWindowProc, hid, hfind, hdec]⟩
    · intro hnone
      have hdec : hookDecision env data uMsg wParam lParam = none := by
        cases hd : hookDecision env data uMsg wParam lParam with
        | none => rfl
        | some v => rw [hd] at hnone; simp at hnone
      simp [SystemMenuHookWindowProc, hid, hfind, hdec, hproc]
  · intro hid hfind
    simp [SystemMenuHookWindowProc, hid, hfind]

/-- C3, on the table `installSystemMenuHook` builds for window 7 whose previous
procedure is 4096, with (10,5) the only draggable point: a right-button release
at (10,5) shows the system menu, a release at (10,50) goes to the original
procedure, and a message for the unknown window 8 goes to `DefWindowProcW`. -/
theorem SystemMenuHookWindowProc_spec_witness :
    (∃ nativeGlobalPos broughtByKeyboard,
      SystemMenuHookWindowProc
        ⟨id, fun p => some ⟨p.x + 100, p.y + 200⟩, fun _ => false, none, false, false, 8, 8,
          true, 30, false⟩
        (installSystemMenuHook 9999 true (fun _ => 4096) [] 7
          (some ⟨false, fun p => decide (p = ⟨10, 5⟩), fun _ dflt => dflt⟩)).2
        7 WM_RBUTTONUP 0 327690 = .showSystemMenu 7 nativeGlobalPos broughtByKeyboard) ∧
    SystemMenuHookWindowProc
      ⟨id, fun p => some ⟨p.x + 100, p.y + 200⟩, fun _ => false, none, false, false, 8, 8,
        true, 30, false⟩
      (installSystemMenuHook 9999 true (fun _ => 4096) [] 7
        (some ⟨false, fun p => decide (p = ⟨10, 5⟩), fun _ dflt => dflt⟩)).2
      7 WM_RBUTTONUP 0 3276810 = .CallWindowProcW 4096 7 WM_RBUTTONUP 0 3276810 ∧
    SystemMenuHookWindowProc
      ⟨id, fun p => some ⟨p.x + 100, p.y + 200⟩, fun _ => false, none, false, false, 8, 8,
        true, 30, false⟩
      (installSystemMenuHook 9999 true (fun _ => 4096) [] 7
        (some ⟨false, fun p => decide (p = ⟨10, 5⟩), fun _ dflt => dflt⟩)).2
      8 WM_RBUTTONUP 0 327690 = .DefWindowProcW 8 WM_RBUTTONUP 0 327690 :=
  ⟨((SystemMenuHookWindowProc_spec
        ⟨id, fun p => some ⟨p.x + 100, p.y + 200⟩, fun _ => false, none, false, false, 8, 8,
          true, 30, false⟩
        (installSystemMenuHook 9999 true (fun _ => 4096) [] 7
          (some ⟨false, fun p => decide (p = ⟨10, 5⟩), fun _ dflt => dflt⟩)).2
        (installSystemMenuHook_wellFormed 9999 true (fun _ => 4096) [] 7
          (some ⟨false, fun p => decide (p = ⟨10, 5⟩), fun _ dflt => dflt⟩)
          HookTable.wellFormed_nil)
        7 WM_RBUTTONUP 0 327690).1
      ⟨4096, ⟨false, fun p => decide (p = ⟨10, 5⟩), fun _ dflt => dflt⟩⟩ rfl).1
      (Or.inl ⟨rfl, by decide, by decide⟩),
   ((SystemMenuHookWindowProc_spec
        ⟨id, fun p => some ⟨p.x + 100, p.y + 200⟩, fun _ => false, none, false, false, 8, 8,
          true, 30, false⟩
        (installSystemMenuHook 9999 true (fun _ => 4096) [] 7
          (some ⟨false, fun p => decide (p = ⟨10, 5⟩), fun _ dflt => dflt⟩)).2
        (installSystemMenuHook_wellFormed 9999 true (fun _ => 4096) [] 7
          (some ⟨false, fun p => decide (p = ⟨10, 5⟩), fun _ dflt => dflt⟩)
          HookTable.wellFormed_nil)
        7 WM_RBUTTONUP 0 3276810).1
      ⟨4096, ⟨false, fun p => decide (p = ⟨10, 5⟩), fun _ dflt => dflt⟩⟩ rfl).2 (by decide),
   (SystemMenuHookWindowProc_spec
        ⟨id, fun p => some ⟨p.x + 100, p.y + 200⟩, fun _ => false, none, false, false, 8, 8,
          true, 30, false⟩
        (installSystemMenuHook 9999 true (fun _ => 4096) [] 7
          (some ⟨false, fun p => decide (p = ⟨10, 5⟩), fun _ dflt => dflt⟩)).2
        (installSystemMenuHook_wellFormed 9999 true (fun _ => 4096) [] 7
          (some ⟨false, fun p => decide (p = ⟨10, 5⟩), fun _ dflt => dflt⟩)
          HookTable.wellFormed_nil)
        8 WM_RBUTTONUP 0 327690).2 (by decide) rfl⟩

/-- The hook evaluated for window 7, whose only draggable point is (10,5) and
whose Alt key is down: the menu is shown at the screen position of the release
for WM_RBUTTONUP at (10,5), at the decoded
position (-1,-2) for WM_NCRBUTTONUP on the caption, and at the keyboard position
for SC_KEYMENU with VK_SPACE; the other messages go to the original procedure. -/
theorem SystemMenuHookWindowProc_examples :
    [(WM_RBUTTONUP, 0, (327690 : Int)), (WM_RBUTTONUP, 0, 3276810),
      (WM_RBUTTONUP, 0, 327680), (WM_NCRBUTTONUP, HTCAPTION, 4294901759),
      (WM_NCRBUTTONUP, 3, 4294901759), (WM_SYSCOMMAND, 0xF105, 0x20),
      (WM_SYSCOMMAND, 0xF105, 0x21), (WM_SYSCOMMAND, 0xF060, 0x20),
      (WM_KEYDOWN, VK_MENU, 0), (WM_SYSKEYDOWN, VK_SPACE, 0), (0x0200, 0, 327690)].map
      (fun (m : Nat × Nat × Int) =>
        SystemMenuHookWindowProc
          ⟨id, fun p => some ⟨p.x + 100, p.y + 200⟩, fun k => decide (k = VK_MENU),
            some ⟨50, 60⟩, false, false, 8, 8, true, 30, false⟩
          (installSystemMenuHook 9999 true (fun _ => 4096) [] 7
            (some ⟨false, fun p => decide (p = ⟨10, 5⟩), fun _ dflt => dflt⟩)).2
          7 m.1 m.2.1 m.2.2) =
      [.showSystemMenu 7 ⟨110, 205⟩ false,
        .CallWindowProcW 4096 7 WM_RBUTTONUP 0 3276810,
        .CallWindowProcW 4096 7 WM_RBUTTONUP 0 327680,
        .showSystemMenu 7 ⟨-1, -2⟩ false,
        .CallWindowProcW 4096 7 WM_NCRBUTTONUP 3 4294901759,
        .showSystemMenu 7 ⟨58, 82⟩ true,
        .CallWindowProcW 4096 7 WM_SYSCOMMAND 0xF105 0x21,
        .CallWindowProcW 4096 7 WM_SYSCOMMAND 0xF060 0x20,
        .CallWindowProcW 4096 7 WM_KEYDOWN VK_MENU 0,
        .showSystemMenu 7 ⟨58, 82⟩ true,
        .CallWindowProcW 4096 7 0x0200 0 327690] := by
  decide

end SystemMenuHook

section Theme

open FramelessManagerPrivate

theorem FramelessManagerPrivate.isThemeOverrided_iff (s : FramelessManagerPrivate) :
    s.isThemeOverrided = true ↔ ∃ t, s.m_overrideTheme = some t ∧ t ≠ .Unknown := by
  unfold isThemeOverrided
  cases h : s.m_overrideTheme with
  | none => simp
  | some t => simp

/-- C4: `systemTheme()` gives the override theme when an override other than
`SystemTheme::Unknown` is stored, and the cached detected theme `m_systemTheme`
in every other state. -/
theorem systemTheme_override_priority (s : FramelessManagerPrivate) :
    (∀ t, s.m_overrideTheme = some t → t ≠ .Unknown → s.systemTheme = t) ∧
    ((¬ ∃ t, s.m_overrideTheme = some t ∧ t ≠ .Unknown) → s.systemTheme = s.m_systemTheme) := by
  constructor
  · intro t ht hne
    have hov : s.isThemeOverrided = true := (isThemeOverrided_iff s).2 ⟨t, ht, hne⟩
    simp [systemTheme, hov, ht]
  · intro hno
    have hov : ¬ s.isThemeOverrided = true := fun h => hno ((isThemeOverrided_iff s).1 h)
    simp [systemTheme, hov]

/-- C4, at a concrete state: the system is light, the user chose dark. -/
theorem systemTheme_override_priority_witness :
    FramelessManagerPrivate.systemTheme ⟨.Light, some .Dark, ⟨0⟩, .None⟩ = .Dark :=
  (systemTheme_override_priority ⟨.Light, some .Dark, ⟨0⟩, .None⟩).1 .Dark rfl (by decide)

theorem doNotify_overrideTheme (windows : Bool) (det : ThemeDetection)
    (s : FramelessManagerPrivate) :
    (s.doNotifySystemThemeHasChangedOrNot windows det).1.m_overrideTheme = s.m_overrideTheme := by
  unfold doNotifySystemThemeHasChangedOrNot
  dsimp only
  split_ifs <;> rfl

theorem doNotify_systemTheme (windows : Bool) (det : ThemeDetection)
    (s : FramelessManagerPrivate) :
    (s.doNotifySystemThemeHasChangedOrNot windows det).1.m_systemTheme = det.systemTheme := by
  unfold doNotifySystemThemeHasChangedOrNot
  dsimp only
  split_ifs with h1 h2 h3 h3 h2 h3 h3 <;> first | rfl | (simpa using h1)

theorem setOverrideTheme_systemTheme (theme : SystemTheme) (s : FramelessManagerPrivate) :
    (s.setOverrideTheme theme).1.m_systemTheme = s.m_systemTheme := by
  unfold setOverrideTheme
  split_ifs <;> rfl

theorem setOverrideTheme_overrideTheme_ne_unknown (theme : SystemTheme)
    (s : FramelessManagerPrivate) (h : s.m_overrideTheme ≠ some .Unknown) :
    (s.setOverrideTheme theme).1.m_overrideTheme ≠ some .Unknown := by
  unfold setOverrideTheme
  split_ifs with h1 h2
  · exact h
  · simp
  · simpa using h2

/-- No state reached from the constructor stores `SystemTheme::Unknown` as override. -/
theorem runThemeCalls_overrideTheme_ne_unknown (windows : Bool) (calls : List ThemeCall)
    (s : FramelessManagerPrivate) (h : s.m_overrideTheme ≠ some .Unknown) :
    (runThemeCalls windows s calls).m_overrideTheme ≠ some .Unknown := by
  induction calls generalizing s with
  | nil => exact h
  | cons c rest ih =>
    have hstep : runThemeCalls windows s (c :: rest) =
        runThemeCalls windows (c.apply windows s) rest := by
      simp [runThemeCalls]
    rw [hstep]
    apply ih
    cases c with
    | setOverrideTheme theme => exact setOverrideTheme_overrideTheme_ne_unknown theme s h
    | doNotifySystemThemeHasChangedOrNot det =>
      simp only [ThemeCall.apply, doNotify_overrideTheme]
      exact h

/-- The cached theme is the most recently detected one along any run of calls. -/
theorem runThemeCalls_systemTheme (windows : Bool) (calls : List ThemeCall)
    (s : FramelessManagerPrivate) :
    (runThemeCalls windows s calls).m_systemTheme = lastDetectedTheme s.m_systemTheme calls := by
  induction calls generalizing s with
  | nil => rfl
  | cons c rest ih =>
    have hstep : runThemeCalls windows s (c :: rest) =
        runThemeCalls windows (c.apply windows s) rest := by
      simp [runThemeCalls]
    rw [hstep, ih]
    cases c with
    | setOverrideTheme theme =>
      simp [ThemeCall.apply, setOverrideTheme_systemTheme, lastDetectedTheme]
    | doNotifySystemThemeHasChangedOrNot det =>
      simp [ThemeCall.apply, doNotify_systemTheme, lastDetectedTheme]

/-- Runs of `doNotifySystemThemeHasChangedOrNot` leave the stored override alone. -/
theorem runThemeCalls_notifies_overrideTheme (windows : Bool) (dets : List ThemeDetection)
    (s : FramelessManagerPrivate) :
    (runThemeCalls windows s
      (dets.map ThemeCall.doNotifySystemThemeHasChangedOrNot)).m_overrideTheme =
      s.m_overrideTheme := by
  induction dets generalizing s with
  | nil => rfl
  | cons d rest ih =>
    have hstep : runThemeCalls windows s
        ((d :: rest).map ThemeCall.doNotifySystemThemeHasChangedOrNot) =
        runThemeCalls windows (s.doNotifySystemThemeHasChangedOrNot windows d).1
          (rest.map ThemeCall.doNotifySystemThemeHasChangedOrNot) := by
      simp [runThemeCalls, ThemeCall.apply]
    rw [hstep, ih, doNotify_overrideTheme]

theorem setOverrideTheme_some (theme : SystemTheme) (s : FramelessManagerPrivate)
    (hne : theme ≠ .Unknown) :
    (s.setOverrideTheme theme).1.m_overrideTheme = some theme := by
  unfold setOverrideTheme
  split_ifs with h1 h2
  · simp only [Bool.or_eq_true, Bool.and_eq_true, beq_iff_eq] at h1
    rcases h1 with ⟨_, h⟩ | ⟨_, h⟩
    · exact absurd h hne
    · exact h
  · simp only [beq_iff_eq] at h2
    exact absurd h2 hne
  · rfl

theorem setOverrideTheme_unknown (s : FramelessManagerPrivate)
    (h : s.m_overrideTheme ≠ some .Unknown) :
    (s.setOverrideTheme .Unknown).1.m_overrideTheme = none := by
  unfold setOverrideTheme
  split_ifs with h1 h2
  · simp only [Bool.or_eq_true, Bool.and_eq_true, beq_iff_eq] at h1
    rcases h1 with ⟨h1, _⟩ | ⟨_, h1⟩
    · simpa using h1
    · exact absurd h1 h
  · rfl
  · simp at h2

theorem systemTheme_of_override (s : FramelessManagerPrivate) (t : SystemTheme)
    (h : s.m_overrideTheme = some t) (hne : t ≠ .Unknown) : s.systemTheme = t := by
  have hov : s.isThemeOverrided = true := (isThemeOverrided_iff s).2 ⟨t, h, hne⟩
  simp [systemTheme, hov, h]

theorem systemTheme_of_no_override (s : FramelessManagerPrivate)
    (h : s.m_overrideTheme = none) : s.systemTheme = s.m_systemTheme := by
  simp [systemTheme, isThemeOverrided, h]

/-- C5: in any state `s` the manager reaches from its constructor, after
`setOverrideTheme(Dark)` (or `Light`) `systemTheme()` gives that theme, and
still gives it after any number of `doNotifySystemThemeHasChangedOrNot()` runs
with arbitrary detections; after `setOverrideTheme(Unknown)` the stored
override is empty and `systemTheme()` gives the most recently detected theme. -/
theorem setOverrideTheme_persists (windows : Bool) (start : ThemeDetection)
    (calls : List ThemeCall) (dets : List ThemeDetection) :
    let s := runThemeCalls windows (initialState windows start) calls
    let notifies := dets.map ThemeCall.doNotifySystemThemeHasChangedOrNot
    (s.setOverrideTheme .Dark).1.systemTheme = .Dark ∧
    (runThemeCalls windows (s.setOverrideTheme .Dark).1 notifies).systemTheme = .Dark ∧
    (s.setOverrideTheme .Light).1.systemTheme = .Light ∧
    (runThemeCalls windows (s.setOverrideTheme .Light).1 notifies).systemTheme = .Light ∧
    (s.setOverrideTheme .Unknown).1.m_overrideTheme = none ∧
    (runThemeCalls windows (s.setOverrideTheme .Unknown).1 notifies).systemTheme =
      lastDetectedTheme start.systemTheme (calls ++ notifies) := by
  intro s notifies
  have hinv : s.m_overrideTheme ≠ some .Unknown :=
    runThemeCalls_overrideTheme_ne_unknown windows calls _ (by simp [initialState])
  have hkeep : ∀ t, t ≠ SystemTheme.Unknown →
      (runThemeCalls windows (s.setOverrideTheme t).1 notifies).systemTheme = t := by
    intro t hne
    apply systemTheme_of_override _ t _ hne
    rw [runThemeCalls_notifies_overrideTheme]
    exact setOverrideTheme_some t s hne
  refine ⟨?_, hkeep _ (by decide), ?_, hkeep _ (by decide), setOverrideTheme_unknown s hinv, ?_⟩
  · exact systemTheme_of_override _ _ (setOverrideTheme_some _ s (by decide)) (by decide)
  · exact systemTheme_of_override _ _ (setOverrideTheme_some _ s (by decide)) (by decide)
  · rw [systemTheme_of_no_override, runThemeCalls_systemTheme, setOverrideTheme_systemTheme]
    · have hs : s.m_systemTheme = lastDetectedTheme start.systemTheme calls := by
        have := runThemeCalls_systemTheme windows calls (initialState windows start)
        simpa [initialState] using this
      rw [hs]
      simp [lastDetectedTheme, List.foldl_append]
    · rw [runThemeCalls_notifies_overrideTheme]
      exact setOverrideTheme_unknown s hinv

/-- C6: `doNotifySystemThemeHasChangedOrNot` emits `systemThemeChanged` exactly
when at least one of the detected system theme, accent colour and (on Windows)
colorization area differs from its cached value and no override theme is set. -/
theorem doNotify_emits_iff (windows : Bool) (det : ThemeDetection)
    (s : FramelessManagerPrivate) :
    (s.doNotifySystemThemeHasChangedOrNot windows det).2 = true ↔
      ((s.m_systemTheme ≠ det.systemTheme ∨ s.m_accentColor ≠ det.accentColor ∨
          (windows = true ∧ s.m_colorizationArea ≠ det.colorizationArea)) ∧
        s.isThemeOverrided = false) := by
  unfold doNotifySystemThemeHasChangedOrNot
  dsimp only
  split_ifs with h1 h2 h3 h3 h2 h3 h3 <;>
    simp only [bne_iff_ne, ne_eq, Bool.and_eq_true, decide_eq_true_eq, not_and, not_not,
      Bool.not_eq_true] at h1 h2 h3 <;>
    simp_all [isThemeOverrided]

end Theme

section Blur

/-- The `blurMode` lambda ends at its `Q_UNREACHABLE_RETURN` marker exactly when
Mica or MicaAlt is requested on Windows 11 or greater, or Acrylic is requested
on Windows 10 or greater. -/
theorem blurMode_unreachable_iff (isWin11OrGreater isWin10OrGreater preferMicaAlt : Bool)
    (mode : BlurMode) :
    blurMode isWin11OrGreater isWin10OrGreater preferMicaAlt mode = .unreachableReturn .Default ↔
      (((mode = .Windows_Mica ∨ mode = .Windows_MicaAlt) ∧ isWin11OrGreater = true) ∨
        (mode = .Windows_Acrylic ∧ isWin10OrGreater = true)) := by
  cases mode <;> cases isWin11OrGreater <;> cases isWin10OrGreater <;> cases preferMicaAlt <;>
    decide

/-- C7 fails on the code: with `BlurMode::Windows_Mica` requested on Windows 11
the `blurMode` lambda of `Utils::setBlurBehindWindowEnabled` passes all four
of its branches and ends at `Q_UNREACHABLE_RETURN(BlurMode::Default)`. -/
theorem blurMode_mica_on_win11_reaches_marker :
    blurMode true true false .Windows_Mica = .unreachableReturn .Default := by
  decide

/-- C8: blur-mode fallback.  A requested Mica or MicaAlt resolves to Acrylic on
Windows 10 (10 or greater but not 11) and to Aero below Windows 10, a requested
Acrylic resolves to Aero below Windows 10; and whenever the lambda returns a
mode, that mode is Mica or MicaAlt only on Windows 11 or greater and Acrylic
only on Windows 10 or greater. -/
theorem blurMode_fallback (isWin11OrGreater isWin10OrGreater preferMicaAlt : Bool)
    (mode : BlurMode) :
    blurMode false true preferMicaAlt .Windows_Mica = .returned .Windows_Acrylic ∧
    blurMode false true preferMicaAlt .Windows_MicaAlt = .returned .Windows_Acrylic ∧
    blurMode false false preferMicaAlt .Windows_Mica = .returned .Windows_Aero ∧
    blurMode false false preferMicaAlt .Windows_MicaAlt = .returned .Windows_Aero ∧
    blurMode false false preferMicaAlt .Windows_Acrylic = .returned .Windows_Aero ∧
    (∀ resolved,
      blurMode isWin11OrGreater isWin10OrGreater preferMicaAlt mode = .returned resolved →
        ((resolved = .Windows_Mica ∨ resolved = .Windows_MicaAlt) → isWin11OrGreater = true) ∧
        (resolved = .Windows_Acrylic → isWin10OrGreater = true)) := by
  refine ⟨?_, ?_, ?_, ?_, ?_, ?_⟩
  · cases preferMicaAlt <;> decide
  · cases preferMicaAlt <;> decide
  · cases preferMicaAlt <;> decide
  · cases preferMicaAlt <;> decide
  · cases preferMicaAlt <;> decide
  · intro resolved
    cases mode <;> cases isWin11OrGreater <;> cases isWin10OrGreater <;>
      cases preferMicaAlt <;> cases resolved <;> decide

/-- C8, at a concrete request: the default mode on Windows 11 resolves to Mica,
and that is on Windows 11. -/
theorem blurMode_fallback_witness :
    blurMode true true false .Default = .returned .Windows_Mica ∧ true = true :=
  ⟨by decide,
    ((blurMode_fallback true true false .Default).2.2.2.2.2 .Windows_Mica (by decide)).1
      (Or.inl rfl)⟩

end Blur

section WindowList

theorem addWindow_nodup (cfg : ManagerConfig) (data : FramelessManagerData)
    (params : Option Nat) (h : data.Nodup) : (addWindow cfg data params).1.Nodup := by
  unfold addWindow
  cases params with
  | none => exact h
  | some windowId =>
    dsimp only
    split
    · exact h
    · rename_i hc
      have hnot : windowId ∉ data := by simpa using hc
      exact List.nodup_append.2 ⟨h, List.nodup_singleton _, by
        intro a ha hb
        simp only [List.mem_singleton] at hb
        subst hb
        exact hnot ha⟩

theorem removeWindow_nodup (cfg : ManagerConfig) (data : FramelessManagerData)
    (windowId : Nat) (h : data.Nodup) : (removeWindow cfg data windowId).1.Nodup := by
  unfold removeWindow
  split
  · exact h
  · split
    · exact h
    · exact h.filter _

theorem runWindowCalls_nodup (cfg : ManagerConfig) (calls : List WindowCall)
    (data : FramelessManagerData) (h : data.Nodup) : (runWindowCalls cfg data calls).Nodup := by
  induction calls generalizing data with
  | nil => exact h
  | cons c rest ih =>
    cases c with
    | addWindow params =>
      have hstep : runWindowCalls cfg data (WindowCall.addWindow params :: rest) =
          runWindowCalls cfg (addWindow cfg data params).1 rest := by
        simp [runWindowCalls]
      rw [hstep]
      exact ih _ (addWindow_nodup cfg data params h)
    | removeWindow windowId =>
      have hstep : runWindowCalls cfg data (WindowCall.removeWindow windowId :: rest) =
          runWindowCalls cfg (removeWindow cfg data windowId).1 rest := by
        simp [runWindowCalls]
      rw [hstep]
      exact ih _ (removeWindow_nodup cfg data windowId h)

/-- C9: after every sequence of `addWindow` and `removeWindow` calls on the
initially empty list `g_framelessManagerData`, the list has no duplicate id;
`addWindow` for a registered id, and `removeWindow` for id zero or for an id
that is not registered, leave the list unchanged and invoke no platform helper;
after `removeWindow(id)` for a registered non-zero id the list does not
contain `id`. -/
theorem windowList_spec (cfg : ManagerConfig) (calls : List WindowCall) (windowId : Nat) :
    let data := runWindowCalls cfg [] calls
    data.Nodup ∧
    (windowId ∈ data → addWindow cfg data (some windowId) = (data, [])) ∧
    removeWindow cfg data 0 = (data, []) ∧
    (windowId ∉ data → removeWindow cfg data windowId = (data, [])) ∧
    (windowId ≠ 0 → windowId ∈ data → windowId ∉ (removeWindow cfg data windowId).1) := by
  intro data
  refine ⟨runWindowCalls_nodup cfg calls [] List.nodup_nil, ?_, ?_, ?_, ?_⟩
  · intro hmem
    simp [addWindow, hmem]
  · simp [removeWindow]
  · intro hnot
    simp [removeWindow, hnot]
  · intro hne hmem
    simp [removeWindow, hne, hmem]

/-- C9, on a concrete run: windows 5 and 6 are added, 5 is added again and then
removed. -/
theorem windowList_spec_witness :
    5 ∉ (removeWindow ⟨true, false⟩
      (runWindowCalls ⟨true, false⟩ []
        [.addWindow (some 5), .addWindow (some 6), .addWindow (some 5)]) 5).1 :=
  (windowList_spec ⟨true, false⟩
    [.addWindow (some 5), .addWindow (some 6), .addWindow (some 5)] 5).2.2.2.2
    (by decide) (by decide)

end WindowList

section FixedSize

open FramelessQuickHelperPrivate

theorem QSize.boundedToWindowRange_isEmpty (size : QSize) :
    size.boundedToWindowRange.isEmpty = size.isEmpty := by
  have hmax : (1 : Int) ≤ QWINDOWSIZE_MAX := by decide
  unfold QSize.boundedToWindowRange QSize.isEmpty
  simp only
  rw [Bool.eq_iff_iff]
  simp only [Bool.or_eq_true, decide_eq_true_eq]
  omega

/-- C10 fails on the code in two ways: a window that carries
`Qt::MSWindowsFixedSizeDialogHint` still reports fixed size after
`setWindowFixedSize(false)`, and a window whose current size is 0x0 still
reports not fixed size after `setWindowFixedSize(true)`. -/
theorem setWindowFixedSize_counterexample :
    isWindowFixedSize
      (setWindowFixedSize ⟨160, 160⟩
        ⟨some ⟨1, ⟨640, 480⟩, 0x100, ⟨0, 0⟩, ⟨16777215, 16777215⟩⟩⟩ false) = true ∧
    isWindowFixedSize
      (setWindowFixedSize ⟨160, 160⟩
        ⟨some ⟨1, ⟨0, 0⟩, 0, ⟨0, 0⟩, ⟨16777215, 16777215⟩⟩⟩ true) = false := by
  constructor <;> decide

/-- C10, amended: for a helper attached to a window, after
`setWindowFixedSize(true)` returns `isWindowFixedSize()` is true when the
window was already fixed-size or its current size is not empty, and after
`setWindowFixedSize(false)` returns `isWindowFixedSize()` is false when the
window does not carry `Qt::MSWindowsFixedSizeDialogHint` (the constant
`kDefaultWindowSize` being smaller than the largest window size in some
dimension). -/
theorem setWindowFixedSize_then_isWindowFixedSize (kDefaultWindowSize : QSize)
    (d : FramelessQuickHelperPrivate) (window : QQuickWindow) (hwin : d.window = some window) :
    ((d.isWindowFixedSize = true ∨ window.size.isEmpty = false) →
      (setWindowFixedSize kDefaultWindowSize d true).isWindowFixedSize = true) ∧
    (window.flags &&& MSWindowsFixedSizeDialogHint = 0 →
      (kDefaultWindowSize.width < QWINDOWSIZE_MAX ∨
        kDefaultWindowSize.height < QWINDOWSIZE_MAX) →
      (setWindowFixedSize kDefaultWindowSize d false).isWindowFixedSize = false) := by
  constructor
  · intro hpre
    by_cases hfix : d.isWindowFixedSize = true
    · simp [setWindowFixedSize, hwin, hfix]
    · rcases hpre with h | hsize
      · exact absurd h hfix
      · have hb : window.size.boundedToWindowRange.isEmpty = false := by
          rw [QSize.boundedToWindowRange_isEmpty]; exact hsize
        simp only [setWindowFixedSize, hwin, hfix, if_false, if_true]
        simp only [isWindowFixedSize, QQuickWindow.setMinimumSize, QQuickWindow.setMaximumSize,
          hb]
        simp [hb]
  · intro hflag hk
    by_cases hfix : d.isWindowFixedSize = false
    · simp [setWindowFixedSize, hwin, hfix]
    · have hne : ¬ kDefaultWindowSize.boundedToWindowRange =
          (⟨QWINDOWSIZE_MAX, QWINDOWSIZE_MAX⟩ : QSize).boundedToWindowRange := by
        have hmax : QWINDOWSIZE_MAX = 16777215 := by decide
        unfold QSize.boundedToWindowRange
        simp only [QSize.mk.injEq, not_and]
        rw [hmax] at hk ⊢
        omega
      simp only [setWindowFixedSize, hwin, hfix, if_false, Bool.false_eq_true]
      simp only [isWindowFixedSize, QQuickWindow.setMinimumSize, QQuickWindow.setMaximumSize,
        hflag]
      simp [hne, hflag]

/-- C10 amended, at concrete windows: a 640x480 window becomes fixed-size, and a
window fixed at 640x480 without the dialog hint becomes resizable again. -/
theorem setWindowFixedSize_then_isWindowFixedSize_witness :
    isWindowFixedSize
      (setWindowFixedSize ⟨160, 160⟩
        ⟨some ⟨1, ⟨640, 480⟩, 0, ⟨0, 0⟩, ⟨16777215, 16777215⟩⟩⟩ true) = true ∧
    isWindowFixedSize
      (setWindowFixedSize ⟨160, 160⟩
        ⟨some ⟨1, ⟨640, 480⟩, 0, ⟨640, 480⟩, ⟨640, 480⟩⟩⟩ false) = false :=
  ⟨(setWindowFixedSize_then_isWindowFixedSize ⟨160, 160⟩
      ⟨some ⟨1, ⟨640, 480⟩, 0, ⟨0, 0⟩, ⟨16777215, 16777215⟩⟩⟩
      ⟨1, ⟨640, 480⟩, 0, ⟨0, 0⟩, ⟨16777215, 16777215⟩⟩ rfl).1 (Or.inr (by decide)),
   (setWindowFixedSize_then_isWindowFixedSize ⟨160, 160⟩
      ⟨some ⟨1, ⟨640, 480⟩, 0, ⟨640, 480⟩, ⟨640, 480⟩⟩⟩
      ⟨1, ⟨640, 480⟩, 0, ⟨640, 480⟩, ⟨640, 480⟩⟩ rfl).2 (by decide) (Or.inl (by decide))⟩

end FixedSize

section Attach

/-- Once the choice `false` is recorded in `m_extendIntoTitleBar`,
`rebindWindow()` changes nothing. -/
theorem rebindWindow_of_recorded_false (s : QuickHelperWorld)
    (h : s.helper.m_extendIntoTitleBar = some false) : s.rebindWindow = s := by
  unfold QuickHelperWorld.rebindWindow
  cases s.helper.window <;> simp [h]

/-- C11 fails on the code: on a helper that is in no window yet,
`extendsContentIntoTitleBar(false)` returns early and records nothing
(`m_extendIntoTitleBar` stays empty), so when the helper then enters a window
`rebindWindow()` attaches it and `isContentExtendedIntoTitleBar()` is true. -/
theorem extendsContentIntoTitleBar_false_not_recorded :
    ((QuickHelperWorld.mk [] { window := none }).extendsContentIntoTitleBar
        false).helper.m_extendIntoTitleBar = none ∧
    (((QuickHelperWorld.mk [] { window := none }).extendsContentIntoTitleBar false).itemChange
        (some ⟨7, ⟨640, 480⟩, 0, ⟨0, 0⟩, ⟨16777215, 16777215⟩⟩)).isContentExtendedIntoTitleBar
      = true := by
  constructor <;> decide

end Attach

section AccentColor

theorem mask_eq : (0xff : Nat) = 2 ^ 8 - 1 := by norm_num

theorem qBlue_qRgba (r g b a : Nat) : qBlue (qRgba r g b a) = b &&& 0xff := by
  unfold qBlue qRgba
  apply Nat.eq_of_testBit_eq
  intro i
  simp only [Nat.testBit_and, Nat.testBit_or, Nat.testBit_shiftLeft, mask_eq,
    Nat.testBit_two_pow_sub_one]
  by_cases hi : i < 8
  · have h1 : ¬ i ≥ 24 := by omega
    have h2 : ¬ i ≥ 16 := by omega
    have h3 : ¬ i ≥ 8 := by omega
    simp [hi, h1, h2, h3]
  · simp [hi]

theorem qGreen_qRgba (r g b a : Nat) : qGreen (qRgba r g b a) = g &&& 0xff := by
  unfold qGreen qRgba
  apply Nat.eq_of_testBit_eq
  intro i
  simp only [Nat.testBit_and, Nat.testBit_shiftRight, Nat.testBit_or, Nat.testBit_shiftLeft,
    mask_eq, Nat.testBit_two_pow_sub_one]
  by_cases hi : i < 8
  · have h1 : ¬ 8 + i ≥ 24 := by omega
    have h2 : ¬ 8 + i ≥ 16 := by omega
    have h3 : 8 + i ≥ 8 := by omega
    have h4 : 8 + i - 8 = i := by omega
    have h5 : ¬ 8 + i < 8 := by omega
    simp [hi, h1, h2, h3, h4, h5]
  · simp [hi]

theorem qRed_qRgba (r g b a : Nat) : qRed (qRgba r g b a) = r &&& 0xff := by
  unfold qRed qRgba
  apply Nat.eq_of_testBit_eq
  intro i
  simp only [Nat.testBit_and, Nat.testBit_shiftRight, Nat.testBit_or, Nat.testBit_shiftLeft,
    mask_eq, Nat.testBit_two_pow_sub_one]
  by_cases hi : i < 8
  · have h1 : 16 + i ≥ 16 := by omega
    have h2 : ¬ 16 + i ≥ 24 := by omega
    have h3 : 16 + i ≥ 8 := by omega
    have h4 : 16 + i - 16 = i := by omega
    have h5 : ¬ 16 + i < 8 := by omega
    have h6 : ¬ 16 + i - 8 < 8 := by omega
    simp [hi, h1, h2, h3, h4, h5, h6]
  · simp [hi]

theorem qAlpha_qRgba (r g b a : Nat) : qAlpha (qRgba r g b a) = a &&& 0xff := by
  unfold qAlpha qRgba
  apply Nat.eq_of_testBit_eq
  intro i
  simp only [Nat.testBit_and, Nat.testBit_shiftRight, Nat.testBit_or, Nat.testBit_shiftLeft,
    mask_eq, Nat.testBit_two_pow_sub_one]
  have h1 : 24 + i ≥ 24 := by omega
  have h2 : 24 + i ≥ 16 := by omega
  have h3 : 24 + i ≥ 8 := by omega
  have h4 : 24 + i - 24 = i := by omega
  have h5 : ¬ 24 + i < 8 := by omega
  have h6 : ¬ 24 + i - 8 < 8 := by omega
  have h7 : ¬ 24 + i - 16 < 8 := by omega
  simp [h1, h2, h3, h4, h5, h6, h7]

/-- C12: `Utils::getAccentColor_windows` swaps the red and blue bytes of the
registry value.  For every 32-bit registry value `v`, with a valid registry key
and value, the returned colour has red = v & 0xFF, green = (v >> 8) & 0xFF,
blue = (v >> 16) & 0xFF and alpha = (v >> 24) & 0xFF. -/
theorem getAccentColor_windows_components (alternative : QColor) (v : Nat)
    (hv : v < 2 ^ 32) :
    (getAccentColor_windows alternative true (some v)).red = v &&& 0xFF ∧
    (getAccentColor_windows alternative true (some v)).green = (v >>> 8) &&& 0xFF ∧
    (getAccentColor_windows alternative true (some v)).blue = (v >>> 16) &&& 0xFF ∧
    (getAccentColor_windows alternative true (some v)).alpha = (v >>> 24) &&& 0xFF := by
  have hmod : v % 4294967296 = v := Nat.mod_eq_of_lt (by simpa using hv)
  have hval : getAccentColor_windows alternative true (some v) =
      QColor.ofComponents (qBlue v) (qGreen v) (qRed v) (qAlpha v) := by
    simp [getAccentColor_windows, QColor.fromRgba, QColor.isValid, QColor.red, QColor.green,
      QColor.blue, QColor.alpha, hmod]
  rw [hval]
  simp only [QColor.red, QColor.green, QColor.blue, QColor.alpha, QColor.ofComponents,
    qRed_qRgba, qGreen_qRgba, qBlue_qRgba, qAlpha_qRgba]
  refine ⟨?_, ?_, ?_, ?_⟩
  · simp [qBlue, Nat.and_assoc]
  · simp [qGreen, Nat.and_assoc]
  · simp [qRed, Nat.and_assoc]
  · simp [qAlpha]

/-- C12, at the registry value 0xAABBCCDD: red is 0xDD. -/
theorem getAccentColor_windows_components_witness :
    (getAccentColor_windows ⟨0⟩ true (some 0xAABBCCDD)).red = 0xDD :=
  (getAccentColor_windows_components ⟨0⟩ 0xAABBCCDD (by norm_num)).1

end AccentColor

section VBlank

/-- For a positive period the phase `m` lies in 0 .. period, and it equals the
period exactly when `dt` is negative and a multiple of the period. -/
theorem vblankPhase_bounds (period dt : Int) (hp : 0 < period) :
    0 ≤ (vblankPhase period dt).2 ∧ (vblankPhase period dt).2 ≤ period ∧
    ((vblankPhase period dt).2 = period ↔ (dt < 0 ∧ period ∣ dt)) := by
  unfold vblankPhase
  by_cases hdt : dt ≥ 0
  · have hw : Int.tdiv dt period = dt / period := Int.tdiv_eq_ediv hdt (le_of_lt hp)
    have h1 := Int.emod_nonneg dt (ne_of_gt hp)
    have h2 := Int.emod_lt_of_pos dt hp
    have h3 := Int.ediv_add_emod dt period
    simp only [hdt, if_true, hw]
    refine ⟨by linarith, by linarith, ?_⟩
    constructor
    · intro h; exfalso; linarith
    · intro h; exfalso; linarith [h.1]
  · have hneg : 0 ≤ -dt := by omega
    have hw : Int.tdiv dt period = -((-dt) / period) := by
      have h := Int.tdiv_eq_ediv hneg (le_of_lt hp)
      rw [Int.neg_tdiv] at h
      omega
    have h1 := Int.emod_nonneg (-dt) (ne_of_gt hp)
    have h2 := Int.emod_lt_of_pos (-dt) hp
    have h3 := Int.ediv_add_emod (-dt) period
    simp only [hdt, if_false, hw]
    have hm : dt - period * (-1 + -(-dt / period)) = period - (-dt) % period := by
      have : period * (-1 + -(-dt / period)) = -period - period * (-dt / period) := by ring
      rw [this]; linarith
    rw [hm]
    refine ⟨by linarith, by linarith, ?_⟩
    constructor
    · intro h
      have h0 : (-dt) % period = 0 := by linarith
      exact ⟨by omega, (Int.dvd_neg).1 (Int.dvd_of_emod_eq_zero h0)⟩
    · rintro ⟨_, hd⟩
      have h0 : (-dt) % period = 0 := Int.emod_eq_zero_of_dvd ((Int.dvd_neg).2 hd)
      linarith

/-- C13 fails on the code: for period 10 and dt = -10 (the vertical blank DWM
reported lies exactly one period in the past) the code computes w = -2 and
m = 10, so the assertion `m < period` does not hold. -/
theorem vblankPhase_assertion_fails :
    vblankPhase 10 (-10) = (-2, 10) ∧ ¬ (vblankPhase 10 (-10)).2 < 10 := by
  constructor <;> decide

end VBlank

section HookReinstall

/-- C14 fails on the code: window 7 has the procedure 4096 and the hook lives at
9999.  After `installSystemMenuHook`, `removeSysMenuHook` (which erases the
entry and leaves the hook installed) and `installSystemMenuHook` again, the
entry of the window stores the hook itself as `originalWindowProc`, and the
hook hands a WM_KEYDOWN message over to itself. -/
theorem removeSysMenuHook_then_install_stores_hook :
    ((runHookCalls 9999 (fun _ => 4096, [])
        [.installSystemMenuHook 7 (some ⟨false, fun _ => false, fun _ dflt => dflt⟩),
         .removeSysMenuHook 7,
         .installSystemMenuHook 7 (some ⟨false, fun _ => false, fun _ dflt => dflt⟩)]).2.constFind
      7).map Win32UtilsData.originalWindowProc = some 9999 ∧
    SystemMenuHookWindowProc
      ⟨id, fun p => some p, fun _ => false, none, false, false, 8, 8, true, 30, false⟩
      (runHookCalls 9999 (fun _ => 4096, [])
        [.installSystemMenuHook 7 (some ⟨false, fun _ => false, fun _ dflt => dflt⟩),
         .removeSysMenuHook 7,
         .installSystemMenuHook 7 (some ⟨false, fun _ => false, fun _ dflt => dflt⟩)]).2
      7 WM_KEYDOWN 0 0 = .CallWindowProcW 9999 7 WM_KEYDOWN 0 0 := by
  constructor <;> decide

/-- With `uninstallSystemMenuHook` in place of `removeSysMenuHook` the second
installation stores the procedure the window had at first. -/
theorem uninstall_then_install_stores_original :
    ((runHookCalls 9999 (fun _ => 4096, [])
        [.installSystemMenuHook 7 (some ⟨false, fun _ => false, fun _ dflt => dflt⟩),
         .uninstallSystemMenuHook 7,
         .installSystemMenuHook 7 (some ⟨false, fun _ => false, fun _ dflt => dflt⟩)]).2.constFind
      7).map Win32UtilsData.originalWindowProc = some 4096 := by
  decide

end HookReinstall

section DpiAwarenessLevel

end DpiAwarenessLevel

end FramelessHelper
